import Mathlib

/-!
Verification of the PBAM statement-understanding pipeline.

Shallow embedding of the core of `pbam` (OCR statement parsing and the
staging/commit workflow) translated from:
  * `pbam/infrastructure/ocr/processor.py`
  * `pbam/application/document/commands.py`
  * `pbam/application/finance/commands.py`
  * `pbam/domain/document/entities.py`, `pbam/domain/finance/entities.py`,
    `pbam/domain/finance/value_objects.py`
  * `pbam/infrastructure/database/repositories/document.py` (query ordering)

Modelling conventions:
  * Python `Decimal` amounts and confidences are rationals (`ℚ`); `Decimal`
    is a base-10 rational so this is exact.
  * UUIDs are `Nat`, drawn from a fresh-id counter where the source calls
    `uuid4()`.
  * Timestamps (`created_at`, `updated_at`, `started_at`, ...) are omitted:
    no verified property mentions them.
  * Fallible Python code (raising exceptions) returns `Except`/`Option`.
  * Regular-expression matching is hand-compiled per pattern, reproducing
    Python `re` semantics (leftmost match, greedy/lazy quantifiers with
    backtracking, word boundaries).  Non-ASCII characters count as word
    characters, matching Python's Unicode `\w` on Thai text.
-/

namespace PBAM

/-! ## Character and string utilities -/

/-- Word character for `\b` boundaries: ASCII alphanumeric, underscore, or any
non-ASCII character (Thai letters are word characters in Python `re`). -/
def isWordChar (c : Char) : Bool := c.isAlphanum || c == '_' || 127 < c.toNat

/-- Python `\s` (restricted to the whitespace that can occur in single
statement lines). -/
def isSpacePy (c : Char) : Bool :=
  c == ' ' || c == '\t' || c == '\n' || c == '\r' || c == '\x0b' || c == '\x0c'

/-- Blank as in the character class `[ \t]`. -/
def isBlank (c : Char) : Bool := c == ' ' || c == '\t'

/-- Value of a digit list read in base 10 (as `int(...)` on a digit string). -/
def charsToNat (cs : List Char) : Nat :=
  cs.foldl (fun a c => a * 10 + (c.toNat - 48)) 0

/-- Take exactly `n` digit characters, returning them with the rest. -/
def takeDigits : Nat → List Char → Option (List Char × List Char)
  | 0, cs => some ([], cs)
  | _ + 1, [] => none
  | n + 1, c :: cs =>
    if c.isDigit then
      match takeDigits n cs with
      | some (ds, r) => some (c :: ds, r)
      | none => none
    else none

/-- Word boundary after a word character: next char absent or not a word char. -/
def boundAfter : List Char → Bool
  | [] => true
  | c :: _ => !isWordChar c

/-- ASCII lower-casing of a character list (Python `re.I`; Thai unchanged). -/
def lowerChars (cs : List Char) : List Char := cs.map Char.toLower

/-- ASCII upper-casing (Python `str.upper()`; Thai unchanged). -/
def upperChars (cs : List Char) : List Char := cs.map Char.toUpper

/-- Prefix test, returning the remainder on success. -/
def matchLit : List Char → List Char → Option (List Char)
  | [], cs => some cs
  | _ :: _, [] => none
  | p :: ps, c :: cs => if c == p then matchLit ps cs else none

/-- Python `pat in hay` (contiguous substring). -/
def containsSub (pat : List Char) : List Char → Bool
  | [] => (matchLit pat []).isSome
  | c :: cs => (matchLit pat (c :: cs)).isSome || containsSub pat cs

/-- Any of the literal alternatives occurs as a substring. -/
def containsAnyOf (pats : List (List Char)) (hay : List Char) : Bool :=
  pats.any (fun p => containsSub p hay)

/-- Python `str.strip()`. -/
def pyStrip (cs : List Char) : List Char :=
  ((cs.dropWhile isSpacePy).reverse.dropWhile isSpacePy).reverse

/-- Decimal digits of a natural number, most significant first. -/
def natToChars (n : Nat) : List Char :=
  (Nat.toDigits 10 n)

/-- Zero-pad a digit list on the left to width `w` (Python `{:0wd}`). -/
def padZeros (w : Nat) (cs : List Char) : List Char :=
  List.replicate (w - cs.length) '0' ++ cs

/-! ## Python `datetime.date` -/

/-- Python `datetime.date` value (year 1–9999, validated month and day). -/
structure PyDate where
  year : Nat
  month : Nat
  day : Nat
deriving DecidableEq, Repr

def isLeapYear (y : Nat) : Bool :=
  (y % 4 == 0 && y % 100 != 0) || y % 400 == 0

def daysInMonth (y m : Nat) : Nat :=
  if m == 2 then (if isLeapYear y then 29 else 28)
  else if m == 4 || m == 6 || m == 9 || m == 11 then 30
  else 31

/-- The `date(year, month, day)` constructor: `some` on a valid calendar date
(1 ≤ year ≤ 9999), `none` where Python raises `ValueError`. -/
def mkPyDate (y m d : Nat) : Option PyDate :=
  if 1 ≤ y && y ≤ 9999 && 1 ≤ m && m ≤ 12 && 1 ≤ d && d ≤ daysInMonth y m then
    some ⟨y, m, d⟩
  else none

/-- Python `date.isoformat()`: `YYYY-MM-DD` with zero padding. -/
def isoformat (d : PyDate) : String :=
  ⟨padZeros 4 (natToChars d.year) ++ '-' ::
    (padZeros 2 (natToChars d.month) ++ '-' :: padZeros 2 (natToChars d.day))⟩

/-- Strict decimal parse used by `date.fromisoformat` components. -/
def parseNatStrict (cs : List Char) : Option Nat :=
  if cs ≠ [] && cs.all Char.isDigit then some (charsToNat cs) else none

/-- Python `date.fromisoformat` on the canonical `YYYY-MM-DD` layout:
`some` on success, `none` where Python raises `ValueError`. -/
def fromisoformat (s : String) : Option PyDate :=
  match s.splitOn "-" with
  | [y, m, d] =>
    if y.length == 4 && m.length == 2 && d.length == 2 then
      match parseNatStrict y.data, parseNatStrict m.data, parseNatStrict d.data with
      | some yn, some mn, some dn => mkPyDate yn mn dn
      | _, _, _ => none
    else none
  | _ => none

/-! ## `_parse_date` (processor.py lines 218–238)

`_DATE_PATTERNS` holds two compiled regexes, tried in order:
  1. `\b(\d{1,2})[/\-](\d{1,2})[/\-](\d{2,4})\b`   (D[D]/M[M]/YY[YY])
  2. `\b(\d{4})-(\d{2})-(\d{2})\b`                  (YYYY-MM-DD)
Each is hand-compiled below with `re.search` semantics: positions are tried
left to right; at a position the greedy `\d{1,2}` / `\d{2,4}` counts are tried
longest first. -/

def isSepSlashDash (c : Char) : Bool := c == '/' || c == '-'

/-- Try digit-group lengths in the given (greedy) order, passing the digits and
remainder to the continuation; first success wins. -/
def tryDigitsThen (lens : List Nat) (cs : List Char)
    (k : List Char → List Char → Option α) : Option α :=
  match lens with
  | [] => none
  | n :: rest =>
    match takeDigits n cs with
    | some (ds, r) =>
      match k ds r with
      | some v => some v
      | none => tryDigitsThen rest cs k
    | none => tryDigitsThen rest cs k

/-- Match pattern 1 anchored at the current position (word boundary before the
position is checked by the caller). -/
def matchDMYAt (cs : List Char) : Option (List Char × List Char × List Char) :=
  tryDigitsThen [2, 1] cs fun ds r1 =>
    match r1 with
    | c1 :: r2 =>
      if isSepSlashDash c1 then
        tryDigitsThen [2, 1] r2 fun ms r3 =>
          match r3 with
          | c2 :: r4 =>
            if isSepSlashDash c2 then
              tryDigitsThen [4, 3, 2] r4 fun ys r5 =>
                if boundAfter r5 then some (ds, ms, ys) else none
            else none
          | [] => none
      else none
    | [] => none

/-- `re.search` for pattern 1: scan positions left to right; `prevWord` tracks
whether the previous character is a word character (false at string start). -/
def searchDMY : Bool → List Char → Option (List Char × List Char × List Char)
  | _, [] => none
  | prevWord, c :: cs =>
    match (if prevWord then none else matchDMYAt (c :: cs)) with
    | some g => some g
    | none => searchDMY (isWordChar c) cs

/-- Match pattern 2 (`\b(\d{4})-(\d{2})-(\d{2})\b`) anchored at the position. -/
def matchIsoAt (cs : List Char) : Option (List Char × List Char × List Char) :=
  match takeDigits 4 cs with
  | some (g1, r1) =>
    (match r1 with
     | '-' :: r2 =>
       (match takeDigits 2 r2 with
        | some (g2, r3) =>
          (match r3 with
           | '-' :: r4 =>
             (match takeDigits 2 r4 with
              | some (g3, r5) => if boundAfter r5 then some (g1, g2, g3) else none
              | none => none)
           | _ => none)
        | none => none)
     | _ => none)
  | none => none

/-- `re.search` for pattern 2. -/
def searchIso : Bool → List Char → Option (List Char × List Char × List Char)
  | _, [] => none
  | prevWord, c :: cs =>
    match (if prevWord then none else matchIsoAt (c :: cs)) with
    | some g => some g
    | none => searchIso (isWordChar c) cs

/-- Body of the `try` block of `_parse_date`, applied to the three captured
groups unpacked as `d, mo, y = groups` (for BOTH patterns — for pattern 2 this
receives `(YYYY, MM, DD)` in that order, exactly as the source does):
two-digit years get the century prefix (`"20"` if ≤ 30 else `"25"`), years
above 2500 are Buddhist Era and have 543 subtracted, then `date(...)` is
constructed.  `none` models a caught `ValueError`. -/
def tryGroups : List Char × List Char × List Char → Option PyDate
  | (d, mo, y) =>
    let y2 := if y.length == 2 then
        (if charsToNat y ≤ 30 then '2' :: '0' :: y else '2' :: '5' :: y)
      else y
    let yint := charsToNat y2
    let yint := if 2500 < yint then yint - 543 else yint
    mkPyDate yint (charsToNat mo) (charsToNat d)

/-- Second iteration of the `_parse_date` pattern loop (the ISO pattern). -/
def parseDateIsoStep (text : String) : Option String × ℚ :=
  match searchIso false text.data with
  | some g =>
    (match tryGroups g with
     | some dt => (some (isoformat dt), 85 / 100)
     | none => (none, 0))
  | none => (none, 0)

/-- `_parse_date(text)`: returns `(ISO date string | none, confidence)`.
Tries pattern 1 then pattern 2; a `ValueError` inside the `try` block
(`continue`) moves to the next pattern. -/
def parse_date (text : String) : Option String × ℚ :=
  match searchDMY false text.data with
  | some g =>
    (match tryGroups g with
     | some dt => (some (isoformat dt), 85 / 100)
     | none => parseDateIsoStep text)
  | none => parseDateIsoStep text

end PBAM

namespace PBAM


/-! ## Regex-lite machinery

Each compiled pattern of the source is hand-translated into a token list.
Greedy character-class repetitions (`rep0`/`rep1`) do not backtrack; in every
translated pattern the repeated class is disjoint from the first character of
the following token, so greedy matching is complete (equal to `re`). -/

inductive Tok where
  | lit (s : String)
  | rep0 (p : Char → Bool)
  | rep1 (p : Char → Bool)
  | one (p : Char → Bool)
  | digits (n : Nat)

/-- Match a token sequence as a prefix, returning the remainder. -/
def matchToks : List Tok → List Char → Option (List Char)
  | [], cs => some cs
  | .lit s :: ts, cs =>
    (match matchLit s.data cs with
     | some r => matchToks ts r
     | none => none)
  | .rep0 p :: ts, cs => matchToks ts (cs.dropWhile p)
  | .rep1 p :: ts, cs =>
    (match cs with
     | c :: rest => if p c then matchToks ts ((c :: rest).dropWhile p) else none
     | [] => none)
  | .one p :: ts, cs =>
    (match cs with
     | c :: r => if p c then matchToks ts r else none
     | [] => none)
  | .digits n :: ts, cs =>
    (match takeDigits n cs with
     | some (_, r) => matchToks ts r
     | none => none)

/-- `re.search` of a token sequence with no boundary requirements. -/
def searchToks (ts : List Tok) : List Char → Bool
  | [] => (matchToks ts []).isSome
  | c :: cs => (matchToks ts (c :: cs)).isSome || searchToks ts cs

/-- A searched pattern: optional `\b` before, token list, optional `\b` after,
optional end-of-string anchor. -/
structure TokPat where
  startBound : Bool
  toks : List Tok
  endBound : Bool
  endAnchor : Bool

def tokPatEndOk (p : TokPat) (rest : List Char) : Bool :=
  (!p.endBound || boundAfter rest) && (!p.endAnchor || rest.isEmpty)

/-- `re.search` of a `TokPat`; `prevWord` tracks the preceding character class
(`false` at string start). -/
def searchPat (p : TokPat) : Bool → List Char → Bool
  | _, [] => false
  | prevW, c :: cs =>
    ((!p.startBound || !prevW) &&
      (match matchToks p.toks (c :: cs) with
       | some r => tokPatEndOk p r
       | none => false))
    || searchPat p (isWordChar c) cs

/-- `re.match` (anchored at the start) of a `TokPat` (start bound is trivially
satisfied at position 0). -/
def matchPatStart (p : TokPat) (cs : List Char) : Bool :=
  match matchToks p.toks cs with
  | some r => tokPatEndOk p r
  | none => false

/-- `re.search` of `A.*B1|A.*B2|...`: an occurrence of `a` followed anywhere
later (same line) by an occurrence of one of `bAlts`. -/
def searchThenAny (a : List Tok) (bAlts : List (List Tok)) : List Char → Bool
  | [] =>
    (match matchToks a [] with
     | some r => bAlts.any (fun b => searchToks b r)
     | none => false)
  | c :: cs =>
    (match matchToks a (c :: cs) with
     | some r => bAlts.any (fun b => searchToks b r)
     | none => false)
    || searchThenAny a bAlts cs

/-- `re.search` of `\b(A1|A2|...)\b` followed by a condition on the rest of the
line (used for the `\b(USD|...)\b.*[0-9]` payment-method pattern). -/
def searchBndThen (aAlts : List (List Tok)) (after : List Char → Bool) :
    Bool → List Char → Bool
  | _, [] => false
  | prevW, c :: cs =>
    ((!prevW) && aAlts.any (fun a =>
      match matchToks a (c :: cs) with
      | some r => boundAfter r && after r
      | none => false))
    || searchBndThen aAlts after (isWordChar c) cs

def ws0 : Tok := .rep0 isSpacePy
def ws1 : Tok := .rep1 isSpacePy

/-! ## Amount extraction (`_AMOUNT_PATTERN = [\d,]+\.\d{2}`) -/

/-- Match one amount token (`[\d,]+\.\d{2}`) at the current position:
`((integer-and-comma run, two fraction digits), rest)`. -/
def matchAmountTok (cs : List Char) : Option ((List Char × List Char) × List Char) :=
  let run := cs.takeWhile (fun c => c.isDigit || c == ',')
  if run.isEmpty then none
  else
    match cs.drop run.length with
    | '.' :: r2 =>
      (match takeDigits 2 r2 with
       | some (fr, rest) => some ((run, fr), rest)
       | none => none)
    | _ => none

/-- `findall` of the amount pattern: leftmost, non-overlapping. -/
def findAmountsAux : Nat → List Char → List (List Char × List Char)
  | 0, _ => []
  | _ + 1, [] => []
  | fuel + 1, c :: cs =>
    match matchAmountTok (c :: cs) with
    | some (tok, rest) => tok :: findAmountsAux fuel rest
    | none => findAmountsAux fuel cs

def findAmounts (cs : List Char) : List (List Char × List Char) :=
  findAmountsAux cs.length cs

/-- `Decimal(raw.replace(",", ""))` for a matched amount token. -/
def decimalOfTok (tok : List Char × List Char) : ℚ :=
  (charsToNat (tok.1.filter Char.isDigit) : ℚ) + (charsToNat tok.2 : ℚ) / 100

/-- Python `max` with a numeric key: first maximal element. -/
def listMaxQ : ℚ → List ℚ → ℚ
  | m, [] => m
  | m, x :: xs => listMaxQ (if m < x then x else m) xs

/-- `_parse_amount(text)`: the largest matched amount, confidence 0.80, or
`(None, 0.0)` when no amount token occurs. -/
def parse_amount (text : List Char) : Option ℚ × ℚ :=
  match findAmounts text with
  | [] => (none, 0)
  | t :: ts => (some (listMaxQ (decimalOfTok t) (ts.map decimalOfTok)), 80 / 100)

/-! ## Transaction-type inference (`_infer_transaction_type`) -/

def NEGATIVE_INDICATORS : List String := ["DR", "ถอน", "จ่าย", "debit", "withdraw"]
def POSITIVE_INDICATORS : List String := ["CR", "ฝาก", "รับ", "credit", "deposit"]

/-- `_infer_transaction_type(text)`: upper-cases the text, then looks for any
negative indicator (→ expense), then any positive indicator (→ income). -/
def infer_transaction_type (text : List Char) : Option String × ℚ :=
  let upper := upperChars text
  if NEGATIVE_INDICATORS.any (fun i => containsSub (upperChars i.data) upper) then
    (some "expense", 75 / 100)
  else if POSITIVE_INDICATORS.any (fun i => containsSub (upperChars i.data) upper) then
    (some "income", 75 / 100)
  else (none, 0)

/-! ## Payment-method detection (`_PAYMENT_METHOD_PATTERNS`)

All patterns are compiled with `re.I`; predicates below receive the
lower-cased text and use lower-cased literals. -/

def usOrWs (c : Char) : Bool := c == '_' || isSpacePy c
def blankOrMinus (c : Char) : Bool := isSpacePy c || c == '-'

/-- Ordered `(predicate, method)` table, one entry per source pattern. -/
def PAYMENT_METHOD_PATTERNS : List ((List Char → Bool) × String) :=
  [ (fun h => containsAnyOf ["promptpay".data, "พรอมเพย".data, "พร้อมเพย์".data] h,
     "promptpay"),
    (fun h =>
      searchPat ⟨true, [.lit "qr", .one (fun c => c == '-' || c == '*')], false, false⟩ false h ||
      searchToks [.lit "qr", ws0, .lit "code"] h ||
      searchToks [.lit "qr", ws0, .lit "payment"] h ||
      searchToks [.lit "scan", ws0, .lit "qr"] h ||
      searchToks [.lit "สแกน", ws0, .lit "qr"] h ||
      searchToks [.lit "จ่ายบิล", ws0, .lit "qr"] h ||
      searchToks [.lit "จ่ายบิล", ws0, .lit "bt"] h,
     "qr_code"),
    (fun h =>
      containsSub "linepay".data h ||
      searchToks [.lit "line", ws0, .lit "pay"] h ||
      searchToks [.lit "line", ws0, .lit "man"] h ||
      containsSub "liff".data h,
     "digital_wallet"),
    (fun h =>
      containsSub "grabpay".data h || containsSub "grab.com".data h ||
      searchToks [.lit "grab", ws0, .lit "food"] h ||
      searchToks [.lit "grab", ws0, .lit "express"] h,
     "digital_wallet"),
    (fun h =>
      containsSub "truemoney".data h ||
      searchToks [.lit "true", ws0, .lit "money"] h ||
      containsSub "tmn".data h ||
      searchToks [.lit "เติมเงิน", ws0, .one (fun c => c == 't' || c == 'w')] h ||
      searchToks [.lit "true", ws0, .lit "digital"] h,
     "digital_wallet"),
    (fun h => containsAnyOf ["shopeepay".data, "shopeefood".data, "shopeeth".data,
        "shopee".data] h,
     "digital_wallet"),
    (fun h => containsSub "lazada".data h, "digital_wallet"),
    (fun h =>
      containsAnyOf ["netflix".data, "spotify".data, "apple.com/bill".data] h ||
      searchToks [.lit "apple", ws0, .lit "tv"] h ||
      searchToks [.lit "google", ws0, .lit "play"] h ||
      searchToks [.lit "google", ws0, .lit "one"] h ||
      searchPat ⟨false, [.lit "google", ws0, .lit "x"], true, false⟩ false h ||
      searchToks [.lit "google", ws0, .lit "youtube"] h ||
      searchToks [.lit "youtube", ws0, .lit "premium"] h ||
      searchToks [.lit "amazon", ws0, .lit "prime"] h,
     "subscription"),
    (fun h =>
      searchToks [.lit "amz", .rep0 usOrWs, .lit "sd"] h ||
      searchToks [.lit "amz", .rep0 usOrWs, .lit "a", .rep0 usOrWs, .lit "sd"] h ||
      searchToks [.lit "amazon", .one usOrWs, .lit "com"] h ||
      containsSub "amzn.com".data h,
     "online"),
    (fun h =>
      containsAnyOf ["hoyoverse".data, "steamgames".data] h ||
      searchToks [.lit "steam", ws0, .lit "games"] h ||
      containsAnyOf ["playstation".data, "nintendo".data, "blizzard".data] h ||
      searchToks [.lit "riot", ws0, .lit "games"] h,
     "online"),
    (fun h =>
      containsSub "agoda.com".data h ||
      searchPat ⟨false, [.lit "agoda"], true, false⟩ false h ||
      containsAnyOf ["booking.com".data, "airbnb".data, "expedia".data] h,
     "online"),
    (fun h => searchToks [.lit "omise", ws0, .one (fun c => c == '*')] h, "online"),
    (fun h =>
      searchPat ⟨true, [.lit "atm"], true, false⟩ false h ||
      containsAnyOf ["ถอนเงน".data, "ถอนเงิน".data] h,
     "atm"),
    (fun h =>
      searchToks [.lit "internet", ws0, .lit "banking"] h ||
      searchToks [.lit "web", ws0, .lit "bank"] h ||
      searchToks [.lit "mobile", ws0, .lit "bank"] h ||
      containsSub "ibk".data h ||
      ["internet", "scb", "kbank", "bbl", "ktb", "bay"].any (fun b =>
        searchToks [.lit "payment", .rep0 blankOrMinus, .lit b] h) ||
      searchToks [.lit "payment", ws0, .lit "received"] h ||
      searchToks [.lit "k", ws0, .lit "plus"] h ||
      containsSub "k-cash".data h,
     "bank_transfer"),
    (fun h =>
      searchBndThen ([["usd"], ["eur"], ["gbp"], ["jpy"], ["sgd"], ["cny"],
          ["hkd"], ["aud"]].map (List.map Tok.lit))
        (fun rest => rest.any Char.isDigit) false h ||
      ["com", "co.jp", "co.uk", "sg", "au", "th"].any (fun t =>
        searchPat ⟨false, [.one (fun c => c == '.'), .lit t], true, false⟩ false h) ||
      containsAnyOf ["http://".data, "https://".data] h,
     "online") ]

/-- `_detect_payment_method(text)`: first matching table entry wins. -/
def detect_payment_method (text : List Char) : Option String :=
  let lh := lowerChars text
  (PAYMENT_METHOD_PATTERNS.find? (fun pm => pm.1 lh)).map (fun pm => pm.2)

/-! ## Counterparty extraction (`_COUNTERPARTY_EXTRACT_RE`) -/

/-- Bank tokens of the counterparty pattern, in source alternation order. -/
def CP_BANKS : List String :=
  ["SCB", "KBANK", "KBank", "BBL", "KTB", "BAY", "TMB", "TTB", "GSB", "BAAC",
   "GHB", "KK", "TISCO", "LH", "CIMB", "UOB", "CITI", "ICBC", "TBANK",
   "LHBANK", "GHBANK", "Krungsri", "กรุงศรี", "กสิกร", "ไทยพาณิชย์", "กรุงไทย",
   "กรุงเทพ", "ทหารไทย"]

/-- Case-insensitive literal prefix match returning the remainder. -/
def matchLitCI : List Char → List Char → Option (List Char)
  | [], cs => some cs
  | _ :: _, [] => none
  | p :: ps, c :: cs => if c.toLower == p.toLower then matchLitCI ps cs else none

/-- Leftmost bank-token occurrence (alternatives tried in source order at each
position), returning the matched text as it appears in the input and the rest. -/
def cpScan : List Char → Option (List Char × List Char)
  | [] => none
  | c :: cs =>
    match CP_BANKS.findSome? (fun b =>
        (matchLitCI b.data (c :: cs)).map (fun rest =>
          ((c :: cs).take b.data.length, rest))) with
    | some r => some r
    | none => cpScan cs

/-- Second alternative of the optional account group: `\d{4,}`. -/
def cpAcctDigits (r2 : List Char) : Option (List Char × List Char) :=
  let ds := r2.takeWhile Char.isDigit
  if 4 ≤ ds.length then some (ds, r2.drop ds.length) else none

/-- The optional `(?:\s+([Xx]\d{3,}|\d{4,}))?` group after the bank token. -/
def cpAcct (rest : List Char) : Option (List Char × List Char) :=
  let wsl := (rest.takeWhile isSpacePy).length
  if wsl == 0 then none
  else
    match rest.drop wsl with
    | c :: r3 =>
      if c == 'X' || c == 'x' then
        (let ds := r3.takeWhile Char.isDigit
         if 3 ≤ ds.length then some (c :: ds, r3.drop ds.length)
         else cpAcctDigits (c :: r3))
      else cpAcctDigits (c :: r3)
    | [] => none

/-- `_extract_counterparty(description) -> (counterparty_ref, counterparty_name)`. -/
def extract_counterparty (description : List Char) : Option String × Option String :=
  match cpScan description with
  | none => (none, none)
  | some (bank, rest) =>
    match cpAcct rest with
    | some (acct, rest3) =>
      let name := pyStrip rest3
      (some ⟨bank ++ ' ' :: acct⟩, if name.isEmpty then none else some ⟨name⟩)
    | none =>
      let name := pyStrip rest
      (some ⟨bank⟩, if name.isEmpty then none else some ⟨name⟩)



/-! ## Transfer-override predicates and rules

`_CREDIT_CARD_PAYMENT_RE`, `_INVESTMENT_TRANSFER_RE`, `_THAI_BANK_CODE_RE`,
`_TRANSFER_OUT_KW_RE`, `_TRANSFER_IN_KW_RE`, `_CC_PAYMENT_RECEIVED_RE` and the
override blocks of the SCB / KBANK / BAY parsers. -/

/-- `_CREDIT_CARD_PAYMENT_RE.search` (re.I). -/
def credit_card_payment_search (text : List Char) : Bool :=
  let h := lowerChars text
  searchThenAny [.lit "เพื่อชำระ"]
    [[.lit "card"], [.lit "ktc"], [.lit "krungthai"], [.lit "general", ws0, .lit "card"],
     [.lit "krungsri"], [.lit "ayudhya"], [.lit "บัตรเครดิต"],
     [.lit "บัตร", ws0, .lit "เครดิต"]] h ||
  containsSub "ชำระบัตรเครดิต".data h ||
  searchToks [.lit "credit", ws0, .lit "card", ws0, .lit "payment"] h ||
  [[.lit "ktc"], [.lit "krungthai"], [.lit "general"], [.lit "krungsri"],
   [.lit "scb", ws0, .lit "card"], [.lit "kbank", ws0, .lit "card"],
   [.lit "bay", ws0, .lit "card"]].any
    (fun b => searchPat ⟨false, [.lit "ชำระ", ws0] ++ b, true, false⟩ false h) ||
  searchThenAny [.lit "จ่ายบิล", ws1]
    [[.lit "card"], [.lit "ktc"], [.lit "krungthai"], [.lit "ayudhya"],
     [.lit "cardx"], [.lit "credit"], [.lit "บัตร"]] h

/-- `_INVESTMENT_TRANSFER_RE.search` (re.I). -/
def investment_transfer_search (text : List Char) : Bool :=
  let h := lowerChars text
  searchThenAny [.lit "transfer", ws1, .lit "to", ws1, .lit "scb"]
    [[.lit "securities"], [.lit "หลักทรัพย์"], [.lit "webull"], [.lit "invest"]] h ||
  [[.lit "บริษัทหลักทรัพย์"], [.lit "securities"], [.lit "อินโนเวสท์"],
   [.lit "innovestx"]].any (fun b => searchToks ([.lit "ddr", ws1] ++ b) h)

/-- Bank tokens of `_THAI_BANK_CODE_RE` (case-sensitive, `\b..\b`). -/
def THAI_BANK_CODES : List String :=
  ["SCB", "KBANK", "KBank", "BBL", "KTB", "BAY", "TMB", "TTB", "GSB", "BAAC",
   "GHB", "KK", "TISCO", "LH", "CIMB", "UOB", "CITI", "ICBC", "TBANK",
   "LHBANK", "GHBANK", "ISBT", "TCRB", "Krungsri", "กรุงศรี", "กสิกร",
   "ไทยพาณิชย์", "กรุงไทย", "กรุงเทพ", "ทหารไทย"]

def thai_bank_code_search (text : List Char) : Bool :=
  THAI_BANK_CODES.any (fun b => searchPat ⟨true, [.lit b], true, false⟩ false text)

/-- `_TRANSFER_OUT_KW_RE.search` (Thai literals). -/
def transfer_out_kw_search (text : List Char) : Bool :=
  containsAnyOf ["โอนไป".data, "โอนออก".data, "โอนเงินไป".data] text

/-- `_TRANSFER_IN_KW_RE.search` (Thai literals). -/
def transfer_in_kw_search (text : List Char) : Bool :=
  containsAnyOf ["โอนมาจาก".data, "รับโอนจาก".data, "รับเงินจาก".data] text

/-- `_CC_PAYMENT_RECEIVED_RE.search` (re.I). -/
def cc_payment_received_search (text : List Char) : Bool :=
  let h := lowerChars text
  [[Tok.lit "kbank"], [Tok.lit "scb"], [Tok.lit "bay"], [Tok.lit "bbl"],
   [Tok.lit "ktb"], [Tok.lit "tmb"], [Tok.lit "ttb"], [Tok.lit "krungsri"],
   [Tok.lit "promptpay"], [Tok.digits 3]].any
    (fun b => searchToks ([.lit "payment", .rep0 blankOrMinus] ++ b) h) ||
  searchPat ⟨true, [.lit "payment", ws1, .lit "received"], true, false⟩ false h ||
  containsSub "ขอบคุณสำหรับยอดชำระ".data h ||
  containsSub "ยอดชำระจากบัญชี".data h

/-- Common shape of the three-step override block of the SCB and KBANK
parsers, abstracted over the five regex-search outcomes: credit-card-bill
payment, investment transfer, bank-code presence, outgoing keyword, incoming
keyword. -/
def overrideShape3 (tx_type : String) (ccPay invTr bankCode outKw inKw : Bool) :
    String :=
  let t1 := if tx_type == "expense" && ccPay then "transfer" else tx_type
  let t2 := if t1 == "expense" && invTr then "transfer" else t1
  if t2 != "transfer" && bankCode then
    if t2 == "expense" && outKw then "transfer"
    else if t2 == "income" && inKw then "transfer"
    else t2
  else t2

/-- Common shape of the two-step override block of the BAY parser. -/
def overrideShape2 (tx_type : String) (ccPay invTr : Bool) : String :=
  let t1 := if tx_type == "expense" && ccPay then "transfer" else tx_type
  if t1 == "expense" && invTr then "transfer" else t1

/-- Transfer-override block of `_parse_scb_tran_lines` (lines 532–545). -/
def scb_transfer_overrides (tx_type : String) (description : List Char) : String :=
  overrideShape3 tx_type
    (credit_card_payment_search description)
    (investment_transfer_search description)
    (thai_bank_code_search description)
    (transfer_out_kw_search description)
    (transfer_in_kw_search description)

/-- Transfer-override block of `_parse_kbank_lines` (lines 641–654); the
directional keyword checks are the inline `re.search` calls of the source. -/
def kbank_transfer_overrides (tx_type : String) (full_description : List Char) : String :=
  overrideShape3 tx_type
    (credit_card_payment_search full_description)
    (investment_transfer_search full_description)
    (thai_bank_code_search full_description)
    (containsAnyOf ["โอนเงิน".data, "โอนออก".data, "โอนไป".data] full_description)
    (containsAnyOf ["รับโอน".data, "รับเงิน".data] full_description)

/-- Transfer-override block of `_parse_bay_lines` (lines 829–835). -/
def bay_transfer_overrides (tx_type : String) (description : List Char) : String :=
  overrideShape2 tx_type
    (credit_card_payment_search description)
    (investment_transfer_search description)

/-! ## Decimal parsing helpers -/

/-- `Decimal(s)` for the unsigned `digits[.digits]` shapes the parsers build:
an integer part, optionally one dot and a fraction part, at least one part
non-empty, both all digits (a second dot is malformed). -/
def pyDecimal (cs : List Char) : Option ℚ :=
  let int := cs.takeWhile (fun c => c ≠ '.')
  let rest := cs.dropWhile (fun c => c ≠ '.')
  match rest with
  | [] => if !int.isEmpty && int.all Char.isDigit then some (charsToNat int) else none
  | '.' :: frac =>
    if frac.contains '.' then none
    else if (!int.isEmpty || !frac.isEmpty) && int.all Char.isDigit &&
        frac.all Char.isDigit then
      some ((charsToNat int : ℚ) + (charsToNat frac : ℚ) / 10 ^ frac.length)
    else none
  | _ => none

/-- `Decimal(s)` allowing one leading minus sign. -/
def pyDecimalSigned (cs : List Char) : Option ℚ :=
  match cs with
  | '-' :: r => (pyDecimal r).map Neg.neg
  | _ => pyDecimal cs

/-- Strip the `[ \t]` class from both ends. -/
def blankStrip (cs : List Char) : List Char :=
  ((cs.dropWhile isBlank).reverse.dropWhile isBlank).reverse

/-- Backtracking split of a leading `p`-class run of at least `minW`
characters followed by a lazy group: the continuation is tried on the
remainder for run prefixes of length `L, L-1, ..., minW` (regex tries the
greedy run first). -/
def runBacktrackAux (minW : Nat) (cs : List Char) (k : List Char → Option α) :
    Nat → Option α
  | 0 => none
  | w + 1 =>
    if w + 1 < minW then none
    else
      match k (cs.drop (w + 1)) with
      | some v => some v
      | none => runBacktrackAux minW cs k w

def runBacktrack (p : Char → Bool) (minW : Nat) (cs : List Char)
    (k : List Char → Option α) : Option α :=
  runBacktrackAux minW cs k (cs.takeWhile p).length


/-! ## `ExtractedRow` (processor.py lines 28–41) -/

structure ExtractedRow where
  raw_text : String
  transaction_date : Option String := none
  transaction_time : Option String := none
  description : Option String := none
  amount : Option ℚ := none
  transaction_type : Option String := none
  payment_method : Option String := none
  counterparty_ref : Option String := none
  counterparty_name : Option String := none
  confidence : List (String × ℚ) := []
  sort_order : Nat := 0
deriving DecidableEq

/-- Assign consecutive `sort_order` values (the source increments a counter as
each row is appended; the result is the position index). -/
def withSortOrders : Nat → List ExtractedRow → List ExtractedRow
  | _, [] => []
  | n, r :: rs => {r with sort_order := n} :: withSortOrders (n + 1) rs

/-! ## KTC/SCB credit-card parser (`_parse_pdftotext_lines`, lines 288–370) -/

/-- Amount group `([­\-]?\s*[\d,]+\.\d{2})` anchored by `\s*$`, applied
after the separating `\s+` run; returns the captured group text.  The optional
sign never backtracks: dropping a matched sign leaves a character that is
neither whitespace nor a digit, so no alternative match exists. -/
def ccAmountTail (cs : List Char) : Option (List Char) :=
  let signed := match cs with
    | c :: r => if c == '­' || c == '-' then ([c], r) else (([] : List Char), cs)
    | [] => ([], cs)
  let ws := signed.2.takeWhile isSpacePy
  match matchAmountTok (signed.2.drop ws.length) with
  | some ((run, fr), rest) =>
    if (rest.dropWhile isSpacePy).isEmpty then
      some (signed.1 ++ ws ++ run ++ '.' :: fr)
    else none
  | none => none

/-- Lazy-description split for `(.+?)\s+(amount)\s*$`: the shortest non-empty
description prefix followed by a whitespace run and the amount tail wins. -/
def ccSplitAux (pre : List Char) : List Char → Option (List Char × List Char)
  | [] => none
  | c :: rest =>
    let pre2 := pre ++ [c]
    let attempt :=
      let w := (rest.takeWhile isSpacePy).length
      if w == 0 then none
      else
        match ccAmountTail (rest.drop w) with
        | some amt => some (pre2, amt)
        | none => none
    match attempt with
    | some v => some v
    | none => ccSplitAux pre2 rest

/-- Date token `\d{1,2}/\d{1,2}/\d{2,4}` with greedy backtracking, in
continuation style so failure of the rest retries shorter digit groups. -/
def ccDateYearTok (cs : List Char) (k : List Char → List Char → Option α) : Option α :=
  tryDigitsThen [2, 1] cs fun d1 r1 =>
    match r1 with
    | '/' :: r2 =>
      tryDigitsThen [2, 1] r2 fun d2 r3 =>
        match r3 with
        | '/' :: r4 =>
          tryDigitsThen [4, 3, 2] r4 fun d3 r5 =>
            k (d1 ++ '/' :: d2 ++ '/' :: d3) r5
        | _ => none
    | _ => none

/-- Date token `\d{1,2}/\d{1,2}` (no year) in continuation style. -/
def ccDateNoYearTok (cs : List Char) (k : List Char → List Char → Option α) : Option α :=
  tryDigitsThen [2, 1] cs fun d1 r1 =>
    match r1 with
    | '/' :: r2 => tryDigitsThen [2, 1] r2 fun d2 r3 => k (d1 ++ '/' :: d2) r3
    | _ => none

/-- The `_ktc` line pattern: `^date \s+ date \s+ (.+?) \s+ (amount)\s*$`.
Returns `(trans-date, description, amount group)`. -/
def ktcMatch (line : List Char) : Option (String × List Char × List Char) :=
  ccDateYearTok line fun date1 r1 =>
    runBacktrack isSpacePy 1 r1 fun r1b =>
      ccDateYearTok r1b fun _posting r2 =>
        runBacktrack isSpacePy 1 r2 fun r2b =>
          (ccSplitAux [] r2b).map fun da => (⟨date1⟩, da.1, da.2)

/-- The `_scb` line pattern:
`^(\d{1,2}/\d{1,2})(?:\s+(\d{1,2}/\d{1,2}))?\s+(.+?)\s+(amount)\s*$`.
Returns `(posting date, optional trans date, description, amount group)`;
the optional second date is tried first (greedy). -/
def scbCcMatch (line : List Char) :
    Option (String × Option String × List Char × List Char) :=
  ccDateNoYearTok line fun date1 r1 =>
    let withSecond :=
      runBacktrack isSpacePy 1 r1 fun r1b =>
        ccDateNoYearTok r1b fun date2 r2 =>
          runBacktrack isSpacePy 1 r2 fun r2b =>
            (ccSplitAux [] r2b).map fun da => (some (⟨date2⟩ : String), da.1, da.2)
    match withSecond with
    | some (d2, desc, amt) => some (⟨date1⟩, d2, desc, amt)
    | none =>
      runBacktrack isSpacePy 1 r1 fun r1b =>
        (ccSplitAux [] r1b).map fun da => (⟨date1⟩, none, da.1, da.2)

/-- One line of `_parse_pdftotext_lines` (`sort_order` assigned afterwards). -/
def ccRowOfLine (rawLine : String) : Option ExtractedRow :=
  let l := pyStrip rawLine.data
  if l.isEmpty then none
  else
    let parsed : Option (String × List Char × List Char) :=
      match ktcMatch l with
      | some (txd, desc, amt) => some (txd, desc, amt)
      | none =>
        match scbCcMatch l with
        | some (posting, txd, desc, amt) =>
          some ((txd.getD posting) ++ "/2026", desc, amt)
        | none => none
    match parsed with
    | none => none
    | some (date_str, description, amount_str) =>
      let is_negative := containsSub ['­'] amount_str ||
        (match pyStrip amount_str with
         | '-' :: _ => true
         | _ => false)
      let clean := amount_str.filter
        (fun c => !(c == '­' || c == '-' || isSpacePy c || c == ','))
      match pyDecimal clean with
      | none => none
      | some amount =>
        let pd := parse_date date_str
        let payment_method := detect_payment_method description
        let tx_type := if is_negative then "income" else "expense"
        let tx_type :=
          if tx_type == "income" && cc_payment_received_search description
          then "transfer" else tx_type
        some { raw_text := ⟨l⟩,
               transaction_date := pd.1,
               description := some ⟨pyStrip description⟩,
               amount := some amount,
               transaction_type := some tx_type,
               payment_method := payment_method,
               confidence := [("amount", 95 / 100), ("date", pd.2),
                 ("transaction_type", 70 / 100), ("description", 90 / 100),
                 ("payment_method", if payment_method.isSome then 75 / 100 else 0)] }

def parse_pdftotext_lines (lines : List String) : List ExtractedRow :=
  withSortOrders 0 (lines.filterMap ccRowOfLine)

/-! ## Krungsri T1 credit-card parser (`_parse_krusri_lines`, lines 379–475) -/

/-- `_KRUSRI_HEADER_RE.search` (re.I) over the first 30 joined lines. -/
def krusriHeaderSearch (h : List Char) : Bool :=
  let lh := lowerChars h
  searchToks [.lit "เจเนอรัล", ws0, .lit "คาร์ด"] lh ||
  searchToks [.lit "general", ws0, .lit "card", ws0, .lit "services"] lh

/-- `_KRUSRI_SKIP_RE.search` (literal alternatives, case-sensitive). -/
def krusriSkipSearch (t : List Char) : Bool :=
  containsAnyOf ["ขอบคณสำหรับยอดชำระ".data, "SUBTOTAL".data, "ยอดรวม".data,
    "คงวดตอเดอน".data] t

/-- `_KRUSRI_INSTALLMENT_RE.search`: `\b(\d{3}/\d{3})\b`. -/
def krusriInstallment : Bool → List Char → Option String
  | _, [] => none
  | prevW, c :: cs =>
    let here : Option String :=
      if prevW then none
      else
        match takeDigits 3 (c :: cs) with
        | some (a, '/' :: r2) =>
          (match takeDigits 3 r2 with
           | some (b, r3) => if boundAfter r3 then some ⟨a ++ '/' :: b⟩ else none
           | none => none)
        | _ => none
    match here with
    | some v => some v
    | none => krusriInstallment (isWordChar c) cs

/-- `re.sub(r"\s+[\d,]+\.\d{2}.*", "", desc)`: cut from the leftmost
whitespace run followed by an amount token, through the end of the line. -/
def krusriCutFromAmountAux : List Char → List Char → List Char
  | pre, [] => pre.reverse
  | pre, c :: rest =>
    if isSpacePy c &&
        (matchAmountTok (((c :: rest).dropWhile isSpacePy))).isSome then
      pre.reverse
    else krusriCutFromAmountAux (c :: pre) rest

def krusriCutFromAmount (cs : List Char) : List Char :=
  krusriCutFromAmountAux [] cs

/-- `re.sub(r"\s+[\d,]+\.\d{2}\s*$", "", desc)`: cut a trailing whitespace run
plus amount token (plus trailing whitespace) anchored at the end. -/
def krusriCutTrailAux : List Char → List Char → List Char
  | pre, [] => pre.reverse
  | pre, c :: rest =>
    let hit :=
      if isSpacePy c then
        match matchAmountTok ((c :: rest).dropWhile isSpacePy) with
        | some (_, rest2) => (rest2.dropWhile isSpacePy).isEmpty
        | none => false
      else false
    if hit then pre.reverse else krusriCutTrailAux (c :: pre) rest

def krusriCutTrail (cs : List Char) : List Char :=
  krusriCutTrailAux [] cs

/-- Exact date token `\d{2}/\d{2}/\d{2}`. -/
def dmySlashTok (cs : List Char) : Option (List Char × List Char) :=
  match takeDigits 2 cs with
  | some (a, '/' :: r1) =>
    (match takeDigits 2 r1 with
     | some (b, '/' :: r2) =>
       (match takeDigits 2 r2 with
        | some (c, r3) => some (a ++ '/' :: b ++ '/' :: c, r3)
        | none => none)
     | _ => none)
  | _ => none

/-- Rightmost amount group `(-?[\d,]+\.\d{2})` anchored by `\s*$`. -/
def krusriAmountTail (cs : List Char) : Option (List Char) :=
  let signed := match cs with
    | '-' :: r => ((['-'] : List Char), r)
    | _ => ([], cs)
  match matchAmountTok signed.2 with
  | some ((run, fr), rest) =>
    if (rest.dropWhile isSpacePy).isEmpty then some (signed.1 ++ run ++ '.' :: fr)
    else none
  | none => none

/-- Lazy split for `(.+?)\s{3,}(-?amount)\s*$`. -/
def krusriSplitAux (pre : List Char) : List Char → Option (List Char × List Char)
  | [] => none
  | c :: rest =>
    let pre2 := pre ++ [c]
    let attempt :=
      let w := (rest.takeWhile isSpacePy).length
      if w < 3 then none
      else
        match krusriAmountTail (rest.drop w) with
        | some amt => some (pre2, amt)
        | none => none
    match attempt with
    | some v => some v
    | none => krusriSplitAux pre2 rest

/-- `_KRUSRI_TRAN_PATTERN` matcher:
`^(\d{2}/\d{2}/\d{2})\s{10,}(\d{2}/\d{2}/\d{2})\s{3,}(.+?)\s{3,}(-?[\d,]+\.\d{2})\s*$`.
Returns `(date1, date2, raw description, amount group)`. -/
def krusriLineMatch (l : List Char) :
    Option (String × String × List Char × List Char) :=
  match dmySlashTok l with
  | none => none
  | some (d1, r1) =>
    let w := (r1.takeWhile isSpacePy).length
    if w < 10 then none
    else
      match dmySlashTok (r1.drop w) with
      | none => none
      | some (d2, r2) =>
        runBacktrack isSpacePy 3 r2 fun r2b =>
          (krusriSplitAux [] r2b).map fun da => (⟨d1⟩, ⟨d2⟩, da.1, da.2)

/-- One line of `_parse_krusri_lines` (`sort_order` assigned afterwards). -/
def krusriRowOfLine (rawLine : String) : Option ExtractedRow :=
  let l := pyStrip rawLine.data
  if l.isEmpty then none
  else
    match krusriLineMatch l with
    | none => none
    | some (_date1, date2_str, desc_raw, amount_str) =>
      if krusriSkipSearch desc_raw then none
      else
        let clean := (amount_str.filter (fun c => c ≠ ',')).map
          (fun c => if c == '­' then '-' else c)
        match pyDecimalSigned clean with
        | none => none
        | some amount =>
          if amount ≤ 0 then none
          else
            let desc0 := pyStrip desc_raw
            let desc := match krusriInstallment false desc0 with
              | some fraction =>
                pyStrip (krusriCutFromAmount desc0) ++ ' ' :: '(' :: fraction.data ++ [')']
              | none => pyStrip (krusriCutTrail desc0)
            let pd := parse_date date2_str
            let payment_method := (detect_payment_method desc).getD "credit_card"
            some { raw_text := ⟨l⟩,
                   transaction_date := pd.1,
                   description := some ⟨desc⟩,
                   amount := some amount,
                   transaction_type := some "expense",
                   payment_method := some payment_method,
                   confidence := [("amount", 95 / 100), ("date", pd.2),
                     ("transaction_type", 90 / 100), ("description", 85 / 100),
                     ("payment_method", 80 / 100)] }

def parse_krusri_lines (lines : List String) : List ExtractedRow :=
  if krusriHeaderSearch (String.intercalate "\n" (lines.take 30)).data then
    withSortOrders 0 (lines.filterMap krusriRowOfLine)
  else []


/-! ## SCB savings/current account parser (`_parse_scb_tran_lines`, 481–574) -/

def isUpperAZ (c : Char) : Bool := 'A' ≤ c && c ≤ 'Z'

/-- Rightmost split of `(.*)DESC\s*:\s*(.*)$` (the first `.*` is greedy, so
the last occurrence of `DESC\s*:\s*` wins; case-sensitive). -/
def scbDescScan : List Char → List Char → Option (List Char × List Char) →
    Option (List Char × List Char)
  | _, [], best => best
  | pre, c :: rest, best =>
    let best2 :=
      match matchToks [.lit "DESC", ws0, .one (fun x => x == ':'), ws0] (c :: rest) with
      | some r => some (pre.reverse, r)
      | none => best
    scbDescScan (c :: pre) rest best2

/-- Channel group `([A-Z]+)` with backtracking: the longest prefix of the
uppercase run that still lets `(.*)DESC\s*:\s*(.*)$` match the remainder. -/
def scbChannelTryAux (run rest : List Char) : Nat → Option (List Char × List Char × List Char)
  | 0 => none
  | n + 1 =>
    match scbDescScan [] (run.drop (n + 1) ++ rest) none with
    | some (amounts, desc) => some (run.take (n + 1), amounts, desc)
    | none => scbChannelTryAux run rest n

/-- `_SCB_TRAN_PATTERN` matcher:
`^(\d{2}/\d{2}/\d{2})\s+(\d{2}:\d{2})\s+(X[12])\s+([A-Z]+)(.*)DESC\s*:\s*(.*)$`.
Returns `(date, time, code, channel, amounts section, description)`. -/
def scbTranMatch (l : List Char) :
    Option (String × String × String × List Char × List Char × List Char) :=
  match dmySlashTok l with
  | none => none
  | some (date, r1) =>
    let w1 := (r1.takeWhile isSpacePy).length
    if w1 == 0 then none
    else
      match takeDigits 2 (r1.drop w1) with
      | some (hh, ':' :: r2) =>
        (match takeDigits 2 r2 with
         | some (mm, r3) =>
           let w2 := (r3.takeWhile isSpacePy).length
           if w2 == 0 then none
           else
             (match r3.drop w2 with
              | 'X' :: d :: r4 =>
                if d == '1' || d == '2' then
                  let w3 := (r4.takeWhile isSpacePy).length
                  if w3 == 0 then none
                  else
                    let r5 := r4.drop w3
                    let run := r5.takeWhile isUpperAZ
                    if run.isEmpty then none
                    else
                      match scbChannelTryAux run (r5.drop run.length) run.length with
                      | some (channel, amounts, desc) =>
                        some (⟨date⟩, ⟨hh ++ ':' :: mm⟩, ⟨['X', d]⟩, channel, amounts, desc)
                      | none => none
                else none
              | _ => none)
         | none => none)
      | _ => none

def SCB_CHANNEL_TO_METHOD : List (String × String) :=
  [("ENET", "bank_transfer"), ("ATM", "atm"), ("BCMS", "bank_transfer"),
   ("SIPI", "promptpay"), ("KIOS", "atm")]

/-- One line of `_parse_scb_tran_lines` (`sort_order` assigned afterwards). -/
def scbTranRowOfLine (rawLine : String) : Option ExtractedRow :=
  let l := pyStrip rawLine.data
  if l.isEmpty then none
  else
    match scbTranMatch l with
    | none => none
    | some (date_str, time_str, code, channel, amounts_str, descRaw) =>
      match findAmounts amounts_str with
      | [] => none
      | a1 :: _ =>
        let amount := decimalOfTok a1
        let tx_type := if code == "X1" then "income" else "expense"
        let description := pyStrip descRaw
        let tx_type := scb_transfer_overrides tx_type description
        let combined := description ++ ' ' :: channel
        let payment_method :=
          match detect_payment_method combined with
          | some m => some m
          | none =>
            (SCB_CHANNEL_TO_METHOD.find?
              (fun p => p.1.data == upperChars channel)).map (fun p => p.2)
        let cp := extract_counterparty description
        let pd := parse_date date_str
        some { raw_text := ⟨l⟩,
               transaction_date := pd.1,
               transaction_time := some ⟨pyStrip time_str.data⟩,
               description := some ⟨description⟩,
               amount := some amount,
               transaction_type := some tx_type,
               payment_method := payment_method,
               counterparty_ref := cp.1,
               counterparty_name := cp.2,
               confidence := [("amount", 95 / 100), ("date", pd.2),
                 ("transaction_type", 90 / 100), ("description", 85 / 100),
                 ("payment_method", if payment_method.isSome then 80 / 100 else 0)] }

def parse_scb_tran_lines (lines : List String) : List ExtractedRow :=
  withSortOrders 0 (lines.filterMap scbTranRowOfLine)

/-! ## KBANK savings/current account parser (`_parse_kbank_lines`, 579–690) -/

/-- `_KBANK_INCOME_RE.search`. -/
def kbankIncomeSearch (t : List Char) : Bool :=
  containsAnyOf ["รับโอน".data, "ฝากเงิน".data, "รับเงิน".data, "ดอกเบี้ย".data,
    "รับโอนเงิน".data] t

/-- `_KBANK_EXPENSE_RE.search`. -/
def kbankExpenseSearch (t : List Char) : Bool :=
  containsAnyOf ["ชำระเงิน".data, "โอนเงิน".data, "ถอนเงิน".data, "หักเงิน".data,
    "จ่ายเงิน".data] t

/-- `_KBANK_SKIP_RE.search` (case-sensitive literals). -/
def kbankSkipSearch (t : List Char) : Bool :=
  containsAnyOf ["ยอดยกมา".data, "ยอดยกไป".data, "Balance Brought".data] t

def KBANK_CHANNELS : List String :=
  ["K PLUS", "K-Cash", "Internet/Mobile", "ATM KBANK", "K BIZ"]

/-- `_KBANK_CHANNEL_RE.match` (anchored, re.I): length of the first
alternative that prefixes the text. -/
def kbankChannelMatchLen (t : List Char) : Option Nat :=
  KBANK_CHANNELS.findSome? (fun a =>
    (matchLitCI a.data t).map (fun _ => a.data.length))

/-- `_KBANK_CHANNEL_RE.search` (re.I). -/
def kbankChannelSearch (t : List Char) : Bool :=
  containsAnyOf (KBANK_CHANNELS.map (fun a => lowerChars a.data)) (lowerChars t)

/-- Exact date token `\d{2}-\d{2}-\d{2}`. -/
def dmyDashTok (cs : List Char) : Option (List Char × List Char) :=
  match takeDigits 2 cs with
  | some (a, '-' :: r1) =>
    (match takeDigits 2 r1 with
     | some (b, '-' :: r2) =>
       (match takeDigits 2 r2 with
        | some (c, r3) => some (a ++ '-' :: b ++ '-' :: c, r3)
        | none => none)
     | _ => none)
  | _ => none

/-- Trailing `(?:[ \t]+(.+?))?[ \t]*$` after the balance column.
`some none` means the optional memo group is effectively absent (a blank-only
capture is stripped to nothing immediately by the caller, so it is folded into
absence here); `none` means the line cannot match at all (a non-blank character
directly follows the balance). -/
def kbankTail (cs : List Char) : Option (Option (List Char)) :=
  if cs.isEmpty then some none
  else if cs.all isBlank then some none
  else
    match cs with
    | c :: _ => if isBlank c then some (some (blankStrip cs)) else none
    | [] => some none

/-- `([\d,]+\.\d{2})[ \t]+([\d,]+\.\d{2})(?:[ \t]+(.+?))?[ \t]*$` applied
right after the `[ \t]{3,}` run: `(amount group, balance group, memo)`. -/
def kbankAfterDesc (cs : List Char) :
    Option (List Char × List Char × Option (List Char)) :=
  match matchAmountTok cs with
  | some ((r1, f1), rest1) =>
    let w := (rest1.takeWhile isBlank).length
    if w == 0 then none
    else
      match matchAmountTok (rest1.drop w) with
      | some ((r2, f2), rest2) =>
        (match kbankTail rest2 with
         | some memo => some (r1 ++ '.' :: f1, r2 ++ '.' :: f2, memo)
         | none => none)
      | none => none
  | none => none

/-- Lazy split for `(.+?)[ \t]{3,} amount [ \t]+ balance (memo)?`. -/
def kbankSplitAux (pre : List Char) :
    List Char → Option (List Char × List Char × List Char × Option (List Char))
  | [] => none
  | c :: rest =>
    let pre2 := pre ++ [c]
    let attempt :=
      let w := (rest.takeWhile isBlank).length
      if w < 3 then none
      else
        match kbankAfterDesc (rest.drop w) with
        | some (a, b, m) => some (pre2, a, b, m)
        | none => none
    match attempt with
    | some v => some v
    | none => kbankSplitAux pre2 rest

/-- `_KBANK_TRAN_PATTERN` matcher: returns
`(date, optional time, raw description, amount group, balance, memo)`. -/
def kbankLineMatch (l : List Char) :
    Option (String × Option String × List Char × List Char × List Char × Option (List Char)) :=
  match dmyDashTok l with
  | none => none
  | some (d, r1) =>
    let withTime :=
      runBacktrack isBlank 1 r1 fun r1b =>
        match takeDigits 2 r1b with
        | some (hh, ':' :: r2) =>
          (match takeDigits 2 r2 with
           | some (mm, r3) =>
             runBacktrack isBlank 1 r3 fun r3b =>
               (kbankSplitAux [] r3b).map fun q =>
                 ((⟨d⟩ : String), some (⟨hh ++ ':' :: mm⟩ : String), q.1, q.2.1, q.2.2.1, q.2.2.2)
           | none => none)
        | _ => none
    match withTime with
    | some res => some res
    | none =>
      runBacktrack isBlank 1 r1 fun r1b =>
        (kbankSplitAux [] r1b).map fun q =>
          ((⟨d⟩ : String), none, q.1, q.2.1, q.2.2.1, q.2.2.2)

/-- One line of `_parse_kbank_lines` (`sort_order` assigned afterwards). -/
def kbankRowOfLine (rawLine : String) : Option ExtractedRow :=
  let l := pyStrip rawLine.data
  if l.isEmpty then none
  else
    match kbankLineMatch l with
    | none => none
    | some (date_str, time_str, descRaw, amount_str, _balance, memo) =>
      let description := pyStrip descRaw
      let channel_memo := memo.getD []
      if kbankSkipSearch description then none
      else
        match pyDecimal (amount_str.filter (fun c => c ≠ ',')) with
        | none => none
        | some amount =>
          let memo_suffix :=
            match kbankChannelMatchLen channel_memo with
            | some n => pyStrip (channel_memo.drop n)
            | none => channel_memo
          let full_description :=
            if memo_suffix.isEmpty then description
            else pyStrip (description ++ ' ' :: memo_suffix)
          let base_type :=
            if kbankIncomeSearch full_description then some "income"
            else if kbankExpenseSearch full_description then some "expense"
            else none
          match base_type with
          | none => none
          | some ty0 =>
            let tx_type := kbank_transfer_overrides ty0 full_description
            let date_slash : String :=
              ⟨date_str.data.map (fun c => if c == '-' then '/' else c)⟩
            let pd := parse_date date_slash
            let channel_text := channel_memo ++ ' ' :: full_description
            let payment_method :=
              match detect_payment_method channel_text with
              | some m => some m
              | none =>
                if !channel_memo.isEmpty && kbankChannelSearch channel_memo then
                  some "bank_transfer"
                else none
            let cp := extract_counterparty full_description
            some { raw_text := ⟨l⟩,
                   transaction_date := pd.1,
                   transaction_time := time_str.map (fun t => (⟨pyStrip t.data⟩ : String)),
                   description := some ⟨full_description⟩,
                   amount := some amount,
                   transaction_type := some tx_type,
                   payment_method := payment_method,
                   counterparty_ref := cp.1,
                   counterparty_name := cp.2,
                   confidence := [("amount", 95 / 100), ("date", pd.2),
                     ("transaction_type", 90 / 100), ("description", 80 / 100),
                     ("payment_method", if payment_method.isSome then 75 / 100 else 0)] }

def parse_kbank_lines (lines : List String) : List ExtractedRow :=
  withSortOrders 0 (lines.filterMap kbankRowOfLine)


/-! ## BAY / Kept by Krungsri parser (`_parse_bay_lines`, lines 702–891) -/

/-- `_BAY_HEADER_RE.search` (re.I) over the first 40 joined lines. -/
def bayHeaderSearch (h : List Char) : Bool :=
  let lh := lowerChars h
  searchToks [.lit "kept", ws1, .lit "by", ws1, .lit "krungsri"] lh ||
  containsSub "ธนาคารกรุงศรีอยุธยา".data lh ||
  searchToks [.lit "kept", ws1, .lit "savings"] lh ||
  containsSub "keptbykrungsri".data lh

/-- `_BAY_IGNORE_LINE_RE.search` (re.I | re.M), applied to one stripped line. -/
def bayIgnoreSearch (t : List Char) : Bool :=
  let h := lowerChars t
  searchToks [.lit "previous", ws1, .lit "balance"] h ||
  searchToks [.lit "ending", ws1, .lit "balance"] h ||
  containsSub "รวมรายการ".data h ||
  containsSub "สิ้นสุดข้อมูล".data h ||
  searchToks [.lit "end", ws1, .lit "of", ws1, .lit "statement"] h ||
  searchToks [.lit "kept", ws1, .lit "by", ws1, .lit "krungsri"] h ||
  containsSub "ธนาคารกรุงศรีอยุธยา".data h ||
  containsSub "keptbykrungsri".data h ||
  searchToks [.lit "page", ws1, .rep1 Char.isDigit, .one (fun c => c == '/'), ws0,
    .rep1 Char.isDigit] h ||
  containsSub "คำอธิบายช่องทาง".data h ||
  searchToks [.lit "channel", ws1, .lit "description"] h ||
  searchToks [.lit "วันที่", ws1, .lit "เวลา"] h ||
  searchToks [.lit "date", ws1, .lit "time"] h ||
  containsSub "withdrawal".data h ||
  containsSub "deposit".data h ||
  searchToks [.lit "balance", ws1, .lit "(thb)"] h ||
  searchToks [.lit "digital", ws1, .lit "account"] h ||
  containsSub "ประเภทบัญชี".data h ||
  searchToks [.lit "account", ws1, .lit "type"] h ||
  containsSub "รายการเดินบัญชี".data h ||
  containsSub "e-statement".data h ||
  containsSub "period".data h ||
  containsSub "รอบระหว่าง".data h ||
  searchToks [.lit "ข้อมูล", ws1, .lit "ณ", ws1, .lit "วันที่"] h ||
  searchToks [.lit "date", ws1, .lit "as", ws1, .lit "of"] h ||
  searchToks [.lit "kept", ws1, .lit "help", ws1, .lit "center"] h ||
  searchToks [.lit "bank", ws1, .lit "of", ws1, .lit "ayudhya"] h ||
  containsSub "เลขที่บัญชี".data h ||
  searchToks [.lit "reference", ws1, .lit "no"] h ||
  containsSub "ถอน/โอนออก".data h ||
  containsSub "ฝาก/โอนเข้า".data h ||
  containsSub "คงเหลือ".data h ||
  containsSub "ช่องทาง".data h ||
  matchPatStart ⟨false, [.lit "kept", ws1, .lit "savings"], false, true⟩ h ||
  matchPatStart ⟨false, [.digits 3, .one (fun c => c == '-'), .digits 1,
    .one (fun c => c == '-'), .digits 5, .one (fun c => c == '-'), .digits 1],
    false, false⟩ h ||
  searchToks [.lit "total", ws1, .lit "withdrawal"] h ||
  searchToks [.lit "total", ws1, .lit "deposit"] h ||
  searchPat ⟨false, [.lit "รายการ", ws0], false, true⟩ false h

/-- `_BAY_INTERNAL_RE.search`. -/
def bayInternalSearch (t : List Char) : Bool :=
  containsAnyOf ["ฝากเก็บเองไป".data, "แอบเก็บอัตโนมัติไป".data] t

/-- `_BAY_FROM_POCKET_RE.match`-like anchored search
(`^เงินเข้าจาก\s+\w+\s+savings\b`, re.I). -/
def bayFromPocketMatch (t : List Char) : Bool :=
  matchPatStart ⟨false, [.lit "เงินเข้าจาก", ws1, .rep1 isWordChar, ws1,
    .lit "savings"], true, false⟩ (lowerChars t)

/-- `_BAY_BANK_CODE_RE.search` (case-sensitive, `\b..\b`). -/
def BAY_BANK_CODES : List String :=
  ["SCB", "KBANK", "KBank", "BBL", "KTB", "BAY", "TMB", "TTB", "GSB", "BAAC",
   "GHB", "KK", "TISCO", "LH", "CIMB", "UOB", "CITI", "ICBC", "TBANK",
   "LHBANK", "GHBANK", "ISBT", "TCRB"]

def bayBankCodeSearch (t : List Char) : Bool :=
  BAY_BANK_CODES.any (fun b => searchPat ⟨true, [.lit b], true, false⟩ false t)

/-- `_BAY_INCOME_RE.search`. -/
def bayIncomeSearch (t : List Char) : Bool :=
  containsAnyOf ["รับโอนดอกเบี้ย".data, "รับดอกเบี้ย".data] t

/-- `_BAY_TRANSFER_IN_RE` (`^เงินเข้าจาก\b`). -/
def bayTransferInMatch (t : List Char) : Bool :=
  matchPatStart ⟨false, [.lit "เงินเข้าจาก"], true, false⟩ t

/-- `_BAY_TRANSFER_OUT_RE` (`^เงินออกไป\b`). -/
def bayTransferOutMatch (t : List Char) : Bool :=
  matchPatStart ⟨false, [.lit "เงินออกไป"], true, false⟩ t

/-- `_BAY_EXPENSE_RE.search`. -/
def bayExpenseSearch (t : List Char) : Bool :=
  containsAnyOf ["จ่ายด้วย".data, "ชำระ".data] t

/-- `_BAY_CHANNEL_RE` alternatives (lower-cased literals, source order). -/
def BAY_CHANNEL_ALTS : List (List Tok) :=
  [[.lit "kept"], [.lit "oth.mobile"], [.lit "oth.atm"], [.lit "oth.internet"],
   [.lit "oth.counter"], [.lit "oth.cdm"], [.lit "system"], [.lit "kma"],
   [.lit "kol"], [.lit "kbol"], [.lit "ks", ws1, .lit "atm"],
   [.lit "e-payment"], [.lit "bill", ws1, .lit "payment"], [.lit "pos"],
   [.lit "edc"], [.lit "branch"], [.lit "visa"],
   [.lit "tele", ws1, .lit "banking"]]

/-- Case-insensitive `matchToks` (literals compared through `Char.toLower`). -/
def matchToksCI : List Tok → List Char → Option (List Char)
  | [], cs => some cs
  | .lit s :: ts, cs =>
    (match matchLitCI s.data cs with
     | some r => matchToksCI ts r
     | none => none)
  | .rep0 p :: ts, cs => matchToksCI ts (cs.dropWhile p)
  | .rep1 p :: ts, cs =>
    (match cs with
     | c :: rest => if p c then matchToksCI ts ((c :: rest).dropWhile p) else none
     | [] => none)
  | .one p :: ts, cs =>
    (match cs with
     | c :: r => if p c then matchToksCI ts r else none
     | [] => none)
  | .digits n :: ts, cs =>
    (match takeDigits n cs with
     | some (_, r) => matchToksCI ts r
     | none => none)

/-- `_BAY_CHANNEL_RE.search`: `\b(alt)\s*$`; returns the matched group text. -/
def bayChannelFind : Bool → List Char → Option (List Char)
  | _, [] => none
  | prevW, c :: cs =>
    let here :=
      if prevW then none
      else
        BAY_CHANNEL_ALTS.findSome? (fun alt =>
          match matchToksCI alt (c :: cs) with
          | some rest =>
            if (rest.dropWhile isSpacePy).isEmpty then
              some ((c :: cs).take ((c :: cs).length - rest.length))
            else none
          | none => none)
    match here with
    | some g => some g
    | none => bayChannelFind (isWordChar c) cs

def BAY_CHANNEL_TO_METHOD : List (String × String) :=
  [("kept", "digital_wallet"), ("oth.mobile", "bank_transfer"),
   ("oth.atm", "atm"), ("oth.internet", "bank_transfer"),
   ("oth.counter", "bank_transfer"), ("oth.cdm", "bank_transfer"),
   ("system", "bank_transfer"), ("kma", "bank_transfer"),
   ("kol", "bank_transfer"), ("kbol", "bank_transfer"), ("ks atm", "atm")]

/-- `_BAY_DATE_LINE_RE.match`: `^(\d{2}/\d{2}/\d{4})\s+(\d{2}:\d{2})\s+(.+)$`. -/
def bayDateLineMatch (cs : List Char) : Option (String × String × List Char) :=
  match takeDigits 2 cs with
  | some (a, '/' :: r1) =>
    (match takeDigits 2 r1 with
     | some (b, '/' :: r2) =>
       (match takeDigits 4 r2 with
        | some (c, r3) =>
          let w1 := (r3.takeWhile isSpacePy).length
          if w1 == 0 then none
          else
            (match takeDigits 2 (r3.drop w1) with
             | some (hh, ':' :: r4) =>
               (match takeDigits 2 r4 with
                | some (mm, r5) =>
                  let w2 := (r5.takeWhile isSpacePy).length
                  if w2 == 0 then none
                  else
                    let rest := r5.drop w2
                    if rest.isEmpty then none
                    else some (⟨a ++ '/' :: b ++ '/' :: c⟩, ⟨hh ++ ':' :: mm⟩, rest)
                | none => none)
             | _ => none)
        | none => none)
     | _ => none)
  | _ => none

/-- `^[\d,.\s]+$` (stray totals/balances inside a pending record). -/
def bayNumericOnly (t : List Char) : Bool :=
  t.all (fun c => c.isDigit || c == ',' || c == '.' || isSpacePy c)

/-- `^\d{2}/\d{2}/\d{4}\s+-\s+\d{2}/\d{2}/\d{4}$` (page-header date range). -/
def bayDateRange (t : List Char) : Bool :=
  matchPatStart ⟨false, [.digits 2, .one (fun c => c == '/'), .digits 2,
    .one (fun c => c == '/'), .digits 4, ws1, .one (fun c => c == '-'), ws1,
    .digits 2, .one (fun c => c == '/'), .digits 2, .one (fun c => c == '/'),
    .digits 4], false, true⟩ t

/-- Prefix of the first line before the leftmost amount-token match
(`first_line[:m.start()]`). -/
def prefixBeforeAmountAux : List Char → List Char → List Char
  | pre, [] => pre.reverse
  | pre, c :: rest =>
    if (matchAmountTok (c :: rest)).isSome then pre.reverse
    else prefixBeforeAmountAux (c :: pre) rest

/-- A pending multi-line BAY record. -/
structure BayPending where
  date_str : String
  time_str : String
  first_line : List Char
  extra : List (List Char)

/-- `" ".join(s.strip() for s in extra if s.strip())`. -/
def bayExtraText (extra : List (List Char)) : List Char :=
  (((extra.map pyStrip).filter (fun s => !s.isEmpty)).intersperse [' ']).flatten

/-- The `flush()` closure of `_parse_bay_lines` (`sort_order` assigned
afterwards). -/
def bayFlush (p : BayPending) : Option ExtractedRow :=
  let amounts := findAmounts p.first_line
  if amounts.length < 2 then none
  else
    match amounts with
    | [] => none
    | a1 :: _ =>
      let tx_amount := decimalOfTok a1
      let desc_first := pyStrip (prefixBeforeAmountAux [] p.first_line)
      let channel := (bayChannelFind false p.first_line).map pyStrip
      let extra_text := bayExtraText p.extra
      let description :=
        pyStrip (desc_first ++ (if extra_text.isEmpty then [] else ' ' :: extra_text))
      if bayInternalSearch description then none
      else if bayFromPocketMatch description then none
      else
        let base_type :=
          if bayIncomeSearch description then some "income"
          else if bayTransferInMatch description then
            some (if bayBankCodeSearch description then "transfer" else "income")
          else if bayTransferOutMatch description then some "transfer"
          else if bayExpenseSearch description then some "expense"
          else none
        match base_type with
        | none => none
        | some ty0 =>
          let tx_type := bay_transfer_overrides ty0 description
          let pd := parse_date p.date_str
          let payment_method :=
            match detect_payment_method description with
            | some m => some m
            | none =>
              if searchToks [.lit "จ่ายด้วย", ws0, .lit "qr"] (lowerChars description) then
                some "qr_code"
              else
                match channel with
                | some ch =>
                  (BAY_CHANNEL_TO_METHOD.find?
                    (fun q => q.1.data == lowerChars ch)).map (fun q => q.2)
                | none => none
          let cp := extract_counterparty description
          some { raw_text := ⟨p.first_line⟩,
                 transaction_date := pd.1,
                 transaction_time := some p.time_str,
                 description := some ⟨description⟩,
                 amount := some tx_amount,
                 transaction_type := some tx_type,
                 payment_method := payment_method,
                 counterparty_ref := cp.1,
                 counterparty_name := cp.2,
                 confidence := [("amount", 95 / 100), ("date", pd.2),
                   ("transaction_type", 90 / 100), ("description", 85 / 100),
                   ("payment_method", if payment_method.isSome then 70 / 100 else 0)] }

/-- The line loop of `_parse_bay_lines` (pending-record state machine). -/
def bayGo : Option BayPending → List String → List ExtractedRow
  | pending, [] =>
    (match pending with
     | some p => (bayFlush p).toList
     | none => [])
  | pending, line :: ls =>
    let stripped := pyStrip line.data
    if stripped.isEmpty then bayGo pending ls
    else if bayIgnoreSearch stripped then bayGo pending ls
    else
      match bayDateLineMatch stripped with
      | some (d, t, rest) =>
        let flushed :=
          match pending with
          | some p => (bayFlush p).toList
          | none => []
        flushed ++ bayGo (some ⟨d, t, rest, []⟩) ls
      | none =>
        match pending with
        | some p =>
          if bayNumericOnly stripped || bayDateRange stripped then bayGo pending ls
          else bayGo (some {p with extra := p.extra ++ [stripped]}) ls
        | none => bayGo none ls

def parse_bay_lines (lines : List String) : List ExtractedRow :=
  if bayHeaderSearch (String.intercalate "\n" (lines.take 40)).data then
    withSortOrders 0 (bayGo none lines)
  else []

/-! ## Pipeline dispatch and image-detection fallback (`process_pdf`, 894–975) -/

/-- One EasyOCR region detection `(bbox, text, confidence)`. -/
structure Detection where
  bbox : List Int
  text : String
  confidence : ℚ
deriving DecidableEq

/-- Diagnostic raw-output payload of an `OcrResult`. -/
inductive RawOut where
  | pdftotext (format : String) (lines : Nat)
  | noSource (reason : String)
  | easyocr (detections : List (Nat × Detection))
deriving DecidableEq

structure OcrResult where
  raw_output : RawOut
  rows : List ExtractedRow
  page_count : Nat
deriving DecidableEq

/-- The fixed parser priority list `_PARSERS` of `process_pdf`. -/
def PARSER_TABLE : List (String × (List String → List ExtractedRow)) :=
  [("krusri", parse_krusri_lines),
   ("bay", parse_bay_lines),
   ("cc", parse_pdftotext_lines),
   ("scb_tran", parse_scb_tran_lines),
   ("kbank", parse_kbank_lines)]

/-- The dispatch loop: first parser with a non-empty row list wins. -/
def firstRows : List (String × (List String → List ExtractedRow)) → List String →
    Option (String × List ExtractedRow)
  | [], _ => none
  | (fmt, p) :: rest, lines =>
    match p lines with
    | [] => firstRows rest lines
    | r :: rs => some (fmt, r :: rs)

/-- One detection of the EasyOCR fallback loop (`sort_order` assigned
afterwards); detections without a parseable amount produce no row. -/
def detRow (d : Detection) : Option ExtractedRow :=
  match parse_amount d.text.data with
  | (none, _) => none
  | (some amount, amount_conf) =>
    let pd := parse_date d.text
    let ti := infer_transaction_type d.text.data
    let payment_method := detect_payment_method d.text.data
    some { raw_text := d.text,
           transaction_date := pd.1,
           description := some ⟨pyStrip d.text.data⟩,
           amount := some amount,
           transaction_type := ti.1,
           payment_method := payment_method,
           confidence := [("amount", amount_conf * d.confidence),
             ("date", if pd.1.isSome then pd.2 * d.confidence else 0),
             ("transaction_type", ti.2),
             ("description", d.confidence),
             ("payment_method", if payment_method.isSome then 7 / 10 else 0)] }

/-- The EasyOCR fallback over rendered pages. -/
def easyocrFallback (pages : List (List Detection)) : OcrResult :=
  let all_detections := (pages.enum.map (fun pd => pd.2.map (fun d => (pd.1, d)))).flatten
  { raw_output := .easyocr all_detections,
    rows := withSortOrders 0 ((pages.flatten).filterMap detRow),
    page_count := pages.length }

/-- Strategy 2 of `process_pdf`: availability checks, page rendering, EasyOCR. -/
def easyocrBranch (easyocrAvailable pdf2imageAvailable : Bool)
    (pages : Option (List (List Detection))) : OcrResult :=
  if !easyocrAvailable || !pdf2imageAvailable then
    { raw_output := .noSource "scanned PDF and EasyOCR not installed",
      rows := [], page_count := 0 }
  else
    match pages with
    | none =>
      { raw_output := .noSource "pdf2image could not parse this PDF",
        rows := [], page_count := 0 }
    | some pgs => easyocrFallback pgs

/-- `process_pdf`, parameterised by the outcomes of its external collaborators:
`textLines` is the `pdftotext` result (`None` or the extracted lines; an empty
list is falsy and skips strategy 1, as in the source), and `pages` the
`pdf2image`/EasyOCR detections (`none` models a rendering failure). -/
def process_pdf (textLines : Option (List String))
    (easyocrAvailable pdf2imageAvailable : Bool)
    (pages : Option (List (List Detection))) : OcrResult :=
  match textLines with
  | some (l :: ls) =>
    (match firstRows PARSER_TABLE (l :: ls) with
     | some fr =>
       { raw_output := .pdftotext fr.1 (l :: ls).length, rows := fr.2, page_count := 1 }
     | none => easyocrBranch easyocrAvailable pdf2imageAvailable pages)
  | _ => easyocrBranch easyocrAvailable pdf2imageAvailable pages


/-! ## Domain entities (`pbam/domain/document/entities.py`,
`pbam/domain/finance/entities.py`, `pbam/domain/finance/value_objects.py`)

UUIDs are `Nat` drawn from a fresh-id counter; timestamps are omitted. -/

inductive OcrJobStatus where
  | pending
  | processing
  | review
  | committed
  | failed
deriving DecidableEq, Repr

inductive StagingReviewStatus where
  | pending
  | edited
  | confirmed
  | discarded
deriving DecidableEq, Repr

/-- The `{"detections": result.raw_output, "row_count": len(result.rows)}`
payload stored by `mark_review`. -/
structure JobRawOutput where
  detections : RawOut
  row_count : Nat
deriving DecidableEq

structure OcrJob where
  id : Nat
  user_id : Nat
  original_name : String
  storage_path : String
  file_hash : String
  file_size_bytes : Nat
  status : OcrJobStatus := .pending
  raw_ocr_output : Option JobRawOutput := none
  error_message : Option String := none
deriving DecidableEq

def OcrJob.mark_processing (j : OcrJob) : OcrJob :=
  { j with status := .processing }

def OcrJob.mark_review (j : OcrJob) (raw : JobRawOutput) : OcrJob :=
  { j with status := .review, raw_ocr_output := some raw }

def OcrJob.mark_committed (j : OcrJob) : OcrJob :=
  { j with status := .committed }

def OcrJob.mark_failed (j : OcrJob) (error : String) : OcrJob :=
  { j with status := .failed, error_message := some error }

structure StagingTransaction where
  id : Nat
  ocr_job_id : Nat
  user_id : Nat
  sort_order : Int := 0
  review_status : StagingReviewStatus := .pending
  account_id : Option Nat := none
  category_id : Option Nat := none
  amount_thb : Option ℚ := none
  original_amount : Option ℚ := none
  original_currency : Option String := none
  exchange_rate : Option ℚ := none
  transaction_type : Option String := none
  payment_method : Option String := none
  counterparty_ref : Option String := none
  counterparty_name : Option String := none
  description : Option String := none
  transaction_date : Option String := none
  tags : List String := []
  confidence : List (String × ℚ) := []
  raw_text : Option String := none
deriving DecidableEq

def StagingTransaction.mark_edited (r : StagingTransaction) : StagingTransaction :=
  { r with review_status := .edited }

def StagingTransaction.discard (r : StagingTransaction) : StagingTransaction :=
  { r with review_status := .discarded }

def StagingTransaction.confirm (r : StagingTransaction) : StagingTransaction :=
  { r with review_status := .confirmed }

def StagingTransaction.is_committable (r : StagingTransaction) : Bool :=
  r.review_status != .discarded

/-- `Money` value object (the `Currency` code is kept as a validated string). -/
structure Money where
  amount_thb : ℚ
  original_amount : ℚ
  original_currency : String
deriving DecidableEq

def SUPPORTED_CURRENCIES : List String :=
  ["THB", "USD", "EUR", "GBP", "JPY", "SGD", "CNY", "HKD", "AUD", "CAD"]

/-- The ledger `Transaction` dataclass.  NOTE: exactly as in the source, it has
NO `counterparty_ref` / `counterparty_name` fields (only the database model
and the API schema have them). -/
structure Transaction where
  id : Nat
  user_id : Nat
  account_id : Nat
  money : Money
  transaction_type : String
  description : String
  transaction_date : PyDate
  category_id : Option Nat := none
  payment_method : Option String := none
  transfer_pair_id : Option Nat := none
  tags : List String := []
  source_document_id : Option Nat := none
  is_recurring : Bool := false
  metadata : List (String × Nat) := []
deriving DecidableEq

def TRANSACTION_TYPES : List String := ["income", "expense", "transfer"]

/-! ## Finance commands (`pbam/application/finance/commands.py`) -/

inductive FinanceErr where
  | financeError (msg : String)
  | valueError (msg : String)
  | typeError (msg : String)
deriving DecidableEq

/-- Banker's rounding (`Decimal.quantize` default `ROUND_HALF_EVEN`). -/
def roundHalfEven (q : ℚ) : ℤ :=
  let f := ⌊q⌋
  let r := q - f
  if r < 1 / 2 then f
  else if 1 / 2 < r then f + 1
  else if f % 2 = 0 then f else f + 1

/-- `(original_amount * exchange_rate).quantize(Decimal("0.0001"))`. -/
def quantize4 (q : ℚ) : ℚ := (roundHalfEven (q * 10000) : ℚ) / 10000

/-- `_build_money(amount, currency, exchange_rate)`: THB passes through;
a foreign currency needs an exchange rate and a supported code; `Money`
rejects negative amounts in `__post_init__`. -/
def build_money (amount : ℚ) (currency : String) (exchange_rate : Option ℚ) :
    Except FinanceErr Money :=
  if currency == "THB" then
    if amount < 0 then .error (.valueError "Money amount cannot be negative")
    else .ok ⟨amount, amount, "THB"⟩
  else
    match exchange_rate with
    | none => .error (.financeError "exchange_rate is required for non-THB transactions")
    | some rate =>
      if currency ∈ SUPPORTED_CURRENCIES then
        let thb := quantize4 (amount * rate)
        if thb < 0 then .error (.valueError "Money amount cannot be negative")
        else if amount < 0 then .error (.valueError "Money original amount cannot be negative")
        else .ok ⟨thb, amount, currency⟩
      else .error (.valueError "Unsupported currency")

/-- `create_transaction`: builds the `Money`, validates the transaction type
(`TransactionType(transaction_type)` raises `ValueError` on an unknown value),
and then calls `Transaction(...)` passing `counterparty_ref=...` and
`counterparty_name=...` keyword arguments.  The `Transaction` dataclass has no
such fields, so this call raises `TypeError` on EVERY invocation; the model
therefore never returns `.ok`.  The unused parameters mirror the source
signature. -/
def create_transaction (_tx_id _user_id _account_id : Nat) (amount : ℚ)
    (currency : String) (exchange_rate : Option ℚ) (transaction_type : String)
    (_payment_method : Option String) (_description : String)
    (_transaction_date : PyDate) (_category_id : Option Nat)
    (_counterparty_ref _counterparty_name : Option String) (_tags : List String)
    (_source_document_id : Option Nat) (_metadata : List (String × Nat)) :
    Except FinanceErr Transaction :=
  match build_money amount currency exchange_rate with
  | .error e => .error e
  | .ok _money =>
    if transaction_type ∈ TRANSACTION_TYPES then
      .error (.typeError
        "Transaction.__init__() got an unexpected keyword argument counterparty_ref")
    else .error (.valueError "invalid TransactionType")

/-! ## Document commands (`pbam/application/document/commands.py`) and the
repository state (`pbam/infrastructure/database/repositories/document.py`) -/

inductive DocErr where
  | documentError (msg : String)
  | duplicateFile (jobId : Nat)
  | jobNotReady (current : OcrJobStatus)
  | finance (e : FinanceErr)
deriving DecidableEq

/-- The persistent state visible to the document commands: the OCR-job and
staging repositories, the ledger transaction repository, the byte storage, and
the fresh-id counter standing in for `uuid4()`. -/
structure DocState where
  jobs : List OcrJob
  stagingRows : List StagingTransaction
  transactions : List Transaction
  storage : List (String × List Nat)
  nextId : Nat
deriving DecidableEq

def getJobById (st : DocState) (job_id user_id : Nat) : Option OcrJob :=
  st.jobs.find? (fun j => j.id == job_id && j.user_id == user_id)

def getJobByFileHash (st : DocState) (file_hash : String) (user_id : Nat) :
    Option OcrJob :=
  st.jobs.find? (fun j => j.file_hash == file_hash && j.user_id == user_id)

/-- Repository `save`: update by id when present, else insert. -/
def saveJob (st : DocState) (j : OcrJob) : DocState :=
  if st.jobs.any (fun x => x.id == j.id) then
    { st with jobs := st.jobs.map (fun x => if x.id == j.id then j else x) }
  else { st with jobs := st.jobs ++ [j] }

def getStagingById (st : DocState) (staging_id user_id : Nat) :
    Option StagingTransaction :=
  st.stagingRows.find? (fun r => r.id == staging_id && r.user_id == user_id)

def saveStaging (st : DocState) (r : StagingTransaction) : DocState :=
  if st.stagingRows.any (fun x => x.id == r.id) then
    { st with stagingRows := st.stagingRows.map (fun x => if x.id == r.id then r else x) }
  else { st with stagingRows := st.stagingRows ++ [r] }

/-- Stable insertion into a list sorted by `sort_order`. -/
def insertBySortOrder (a : StagingTransaction) :
    List StagingTransaction → List StagingTransaction
  | [] => [a]
  | b :: bs =>
    if a.sort_order ≤ b.sort_order then a :: b :: bs else b :: insertBySortOrder a bs

/-- Stable sort by `sort_order` (the `ORDER BY sort_order` of `list_by_job`). -/
def sortBySortOrder : List StagingTransaction → List StagingTransaction
  | [] => []
  | a :: as => insertBySortOrder a (sortBySortOrder as)

/-- `StagingTransactionRepository.list_by_job`: the job's rows for the user,
in ascending `sort_order`. -/
def list_by_job (st : DocState) (job_id user_id : Nat) : List StagingTransaction :=
  sortBySortOrder (st.stagingRows.filter
    (fun r => r.ocr_job_id == job_id && r.user_id == user_id))

/-- `StagingTransaction` built from an `ExtractedRow` in `_run_ocr_and_stage`
(counterparty fields are NOT copied over). -/
def stagingOfRow (job : OcrJob) (fresh_id : Nat) (row : ExtractedRow) :
    StagingTransaction :=
  { id := fresh_id, ocr_job_id := job.id, user_id := job.user_id,
    sort_order := row.sort_order,
    amount_thb := row.amount,
    transaction_type := row.transaction_type,
    payment_method := row.payment_method,
    description := row.description,
    transaction_date := row.transaction_date,
    confidence := row.confidence,
    raw_text := some row.raw_text }

def bulkStageAux (job : OcrJob) : Nat → List ExtractedRow → List StagingTransaction
  | _, [] => []
  | n, r :: rs => stagingOfRow job n r :: bulkStageAux job (n + 1) rs

/-- `_run_ocr_and_stage`: mark processing, run the pipeline, bulk-create the
staging rows, mark review with the diagnostics payload.  All pipeline
functions of the model are total, so the `except` branch (`mark_failed` and
re-raise) is unreachable here. -/
def run_ocr_and_stage (job : OcrJob) (textLines : Option (List String))
    (easyocrAvailable pdf2imageAvailable : Bool)
    (pages : Option (List (List Detection))) (st : DocState) :
    DocState × Except DocErr OcrJob :=
  let job := job.mark_processing
  let st := saveJob st job
  let result := process_pdf textLines easyocrAvailable pdf2imageAvailable pages
  let staging_rows := bulkStageAux job st.nextId result.rows
  let st := { st with stagingRows := st.stagingRows ++ staging_rows,
                      nextId := st.nextId + result.rows.length }
  let job2 := job.mark_review ⟨result.raw_output, result.rows.length⟩
  (saveJob st job2, .ok job2)

/-- Storage path `{user_id}/{uuid4().hex}_{filename}` with the counter value
standing in for the hex token. -/
def storagePathOf (user_id token : Nat) (filename : String) : String :=
  ⟨natToChars user_id ++ '/' :: natToChars token ++ '_' :: filename.data⟩

/-- `submit_ocr_job`, parameterised by the hash function (`hashlib.sha256`
hex digest) and by the outcomes of the external OCR collaborators.  The
duplicate check runs BEFORE any byte is stored or any job created. -/
def submit_ocr_job (hashFn : List Nat → String) (user_id : Nat)
    (filename : String) (file_bytes : List Nat)
    (textLines : Option (List String)) (easyocrAvailable pdf2imageAvailable : Bool)
    (pages : Option (List (List Detection))) (st : DocState) :
    DocState × Except DocErr OcrJob :=
  let file_hash := hashFn file_bytes
  match getJobByFileHash st file_hash user_id with
  | some existing => (st, .error (.duplicateFile existing.id))
  | none =>
    let storage_path := storagePathOf user_id st.nextId filename
    let job_id := st.nextId + 1
    let st := { st with storage := st.storage ++ [(storage_path, file_bytes)],
                        nextId := st.nextId + 2 }
    let job : OcrJob :=
      { id := job_id, user_id := user_id, original_name := filename,
        storage_path := storage_path, file_hash := file_hash,
        file_size_bytes := file_bytes.length }
    let st := saveJob st job
    run_ocr_and_stage job textLines easyocrAvailable pdf2imageAvailable pages st

/-- The editable-field whitelist of `update_staging_row`. -/
def ALLOWED_UPDATE_FIELDS : List String :=
  ["account_id", "category_id", "amount_thb", "original_amount",
   "original_currency", "exchange_rate", "transaction_type", "payment_method",
   "description", "transaction_date", "tags"]

/-- A value carried by one key of the update dictionary.  The HTTP schema
(`StagingRowUpdate`) guarantees well-typed values for the whitelisted keys;
non-whitelisted keys may carry any value and are never applied. -/
inductive FieldVal where
  | vId (v : Option Nat)
  | vDec (v : Option ℚ)
  | vStr (v : Option String)
  | vTags (v : List String)
deriving DecidableEq

/-- `setattr(row, key, value)` for the editable fields. -/
def setFieldAttr (r : StagingTransaction) (key : String) (v : FieldVal) :
    StagingTransaction :=
  if key == "account_id" then
    (match v with | .vId x => { r with account_id := x } | _ => r)
  else if key == "category_id" then
    (match v with | .vId x => { r with category_id := x } | _ => r)
  else if key == "amount_thb" then
    (match v with | .vDec x => { r with amount_thb := x } | _ => r)
  else if key == "original_amount" then
    (match v with | .vDec x => { r with original_amount := x } | _ => r)
  else if key == "original_currency" then
    (match v with | .vStr x => { r with original_currency := x } | _ => r)
  else if key == "exchange_rate" then
    (match v with | .vDec x => { r with exchange_rate := x } | _ => r)
  else if key == "transaction_type" then
    (match v with | .vStr x => { r with transaction_type := x } | _ => r)
  else if key == "payment_method" then
    (match v with | .vStr x => { r with payment_method := x } | _ => r)
  else if key == "description" then
    (match v with | .vStr x => { r with description := x } | _ => r)
  else if key == "transaction_date" then
    (match v with | .vStr x => { r with transaction_date := x } | _ => r)
  else if key == "tags" then
    (match v with | .vTags x => { r with tags := x } | _ => r)
  else r

/-- The row-level body of `update_staging_row`: apply each whitelisted key of
the update dictionary, ignore the rest, then `mark_edited` unconditionally. -/
def applyStagingUpdates (updates : List (String × FieldVal))
    (row : StagingTransaction) : StagingTransaction :=
  let row := updates.foldl
    (fun r kv => if kv.1 ∈ ALLOWED_UPDATE_FIELDS then setFieldAttr r kv.1 kv.2 else r)
    row
  row.mark_edited

/-- `update_staging_row` command: look up the row, apply the updates, save. -/
def update_staging_row (staging_id user_id : Nat)
    (updates : List (String × FieldVal)) (st : DocState) :
    DocState × Except DocErr StagingTransaction :=
  match getStagingById st staging_id user_id with
  | none => (st, .error (.documentError "Staging row not found"))
  | some row =>
    let row2 := applyStagingUpdates updates row
    (saveStaging st row2, .ok row2)

/-- `discard_staging_row` command. -/
def discard_staging_row (staging_id user_id : Nat) (st : DocState) :
    DocState × Except DocErr Unit :=
  match getStagingById st staging_id user_id with
  | none => (st, .error (.documentError "Staging row not found"))
  | some row => (saveStaging st row.discard, .ok ())

/-- Python `x or default` on an optional string (`None` and `""` are falsy). -/
def pyOrStr (v : Option String) (d : String) : String :=
  match v with
  | some s => if s.isEmpty then d else s
  | none => d

/-- The row loop of `commit_staging` over the committable rows: incomplete
rows (missing amount or type) are skipped; for the rest the posting date is
resolved (`date.fromisoformat`, falling back to today), the ledger create is
attempted, the row confirmed and saved.  An exception from the ledger create
aborts the loop, keeping all effects applied so far. -/
def commitRows (user_id default_account_id job_id : Nat) (today : PyDate) :
    DocState → List StagingTransaction → Nat → DocState × Except DocErr Nat
  | st, [], n => (st, .ok n)
  | st, row :: rest, n =>
    match row.amount_thb, row.transaction_type with
    | some amt, some ty =>
      let tx_date :=
        match row.transaction_date with
        | some s => if s.isEmpty then today else (fromisoformat s).getD today
        | none => today
      (match create_transaction st.nextId user_id (row.account_id.getD default_account_id)
          amt (pyOrStr row.original_currency "THB") row.exchange_rate ty
          (some (pyOrStr row.payment_method "unknown"))
          (pyOrStr row.description "(imported)") tx_date row.category_id
          none none row.tags (some job_id) [("ocr_staging_id", row.id)] with
       | .error e => (st, .error (.finance e))
       | .ok tx =>
         let st := { st with transactions := st.transactions ++ [tx],
                             nextId := st.nextId + 1 }
         let st := saveStaging st row.confirm
         commitRows user_id default_account_id job_id today st rest (n + 1))
    | _, _ => commitRows user_id default_account_id job_id today st rest n

/-- `commit_staging`: requires the job to exist and to be in `review`; walks
the non-discarded rows of `list_by_job` in ascending `sort_order`; finally
marks the job `committed` and returns the committed count. -/
def commit_staging (job_id user_id default_account_id : Nat) (today : PyDate)
    (st : DocState) : DocState × Except DocErr Nat :=
  match getJobById st job_id user_id with
  | none => (st, .error (.documentError "OCR job not found"))
  | some job =>
    if job.status != .review then (st, .error (.jobNotReady job.status))
    else
      let rows := list_by_job st job_id user_id
      let committable := rows.filter (fun r => r.is_committable)
      match commitRows user_id default_account_id job_id today st committable 0 with
      | (st2, .error e) => (st2, .error e)
      | (st2, .ok n) => (saveJob st2 job.mark_committed, .ok n)

/-! ## Claims about `_parse_date` -/

theorem foldl_digits_acc (cs : List Char) (a : Nat) :
    cs.foldl (fun a c => a * 10 + (c.toNat - 48)) a
      = a * 10 ^ cs.length + charsToNat cs := by
  induction cs generalizing a with
  | nil => simp [charsToNat]
  | cons c cs ih =>
    simp only [List.foldl_cons, List.length_cons, charsToNat]
    rw [ih, ih (0 * 10 + (c.toNat - 48))]
    ring

theorem charsToNat_two_zero (ys : List Char) (h : ys.length = 2) :
    charsToNat ('2' :: '0' :: ys) = 2000 + charsToNat ys := by
  show List.foldl _ _ ('2' :: '0' :: ys) = _
  simp only [List.foldl_cons]
  rw [foldl_digits_acc, h]
  norm_num
  decide

theorem charsToNat_two_five (ys : List Char) (h : ys.length = 2) :
    charsToNat ('2' :: '5' :: ys) = 2500 + charsToNat ys := by
  show List.foldl _ _ ('2' :: '5' :: ys) = _
  simp only [List.foldl_cons]
  rw [foldl_digits_acc, h]
  norm_num
  decide

theorem mkPyDate_year {y m d : Nat} {dt : PyDate} (h : mkPyDate y m d = some dt) :
    dt.year = y := by
  unfold mkPyDate at h
  split at h
  · cases h; rfl
  · cases h

/-- C2: for every text on which the `D[D]/M[M]/YY[YY]` pattern matches with
captured groups `(d, mo, y)` and the resulting calendar date is valid,
`_parse_date` returns that date with confidence 0.85, and the resulting year
is: `2000 + yy` for a two-digit year `yy ≤ 30`; `(2500 + yy) - 543` for a
two-digit year `yy > 30` (Buddhist Era 25yy converted to Common Era); and for
longer year groups, the year itself with 543 subtracted exactly when it
exceeds 2500. -/
theorem parse_date_year_normalization
    (s : String) (ds ms ys : List Char) (dt : PyDate)
    (hscan : searchDMY false s.data = some (ds, ms, ys))
    (hdt : tryGroups (ds, ms, ys) = some dt) :
    parse_date s = (some (isoformat dt), 85 / 100) ∧
    dt.year = (if ys.length = 2 then
                 (if charsToNat ys ≤ 30 then 2000 + charsToNat ys
                  else (2500 + charsToNat ys) - 543)
               else (if 2500 < charsToNat ys then charsToNat ys - 543
                     else charsToNat ys)) := by
  constructor
  · simp only [parse_date, hscan, hdt]
  · have h2 := hdt
    unfold tryGroups at h2
    by_cases hlen : ys.length = 2
    · simp only [hlen] at h2
      by_cases hle : charsToNat ys ≤ 30
      · simp only [if_pos hle, beq_self_eq_true, if_pos trivial, if_true] at h2
        rw [charsToNat_two_zero ys hlen] at h2
        have hno : ¬ (2500 < 2000 + charsToNat ys) := by omega
        rw [if_neg hno] at h2
        rw [mkPyDate_year h2]
        simp [hlen, hle]
      · simp only [if_neg hle, beq_self_eq_true, if_true] at h2
        rw [charsToNat_two_five ys hlen] at h2
        have hyes : 2500 < 2500 + charsToNat ys := by omega
        rw [if_pos hyes] at h2
        rw [mkPyDate_year h2]
        simp [hlen, hle]
    · have hbeq : (ys.length == 2) = false := by
        simp [hlen]
      simp only [hbeq, if_false, Bool.false_eq_true] at h2
      by_cases hgt : 2500 < charsToNat ys
      · rw [if_pos hgt] at h2
        rw [mkPyDate_year h2]
        simp [hlen, hgt]
      · rw [if_neg hgt] at h2
        rw [mkPyDate_year h2]
        simp [hlen, hgt]

/-- Witness for C2 at the concrete input `"3/1/26"` (two-digit year 26 ≤ 30,
mapped to Common Era 2026). -/
theorem parse_date_year_normalization_witness :
    parse_date "3/1/26" = (some "2026-01-03", 85 / 100) := by
  have h := parse_date_year_normalization "3/1/26" ['3'] ['1'] ['2', '6']
    ⟨2026, 1, 3⟩ (by decide) (by decide)
  have e : isoformat ⟨2026, 1, 3⟩ = "2026-01-03" := by decide
  rw [e] at h
  exact h.1

/-- C7 (code bug): `_parse_date` never accepts a genuine `YYYY-MM-DD` date.
The second entry of `_DATE_PATTERNS` captures `(YYYY, MM, DD)` but the loop
body unpacks the groups as `d, mo, y = groups`, so the four-digit year is used
as the day of month and the day as a two-digit year; `date(...)` then raises
`ValueError` and the function falls through to `(None, 0.0)`.  Shown here on
the valid Common Era dates 2026-01-15 and 1999-12-31. -/
theorem parse_date_rejects_iso_dates :
    parse_date "2026-01-15" = (none, 0) ∧ parse_date "1999-12-31" = (none, 0) := by
  exact ⟨rfl, rfl⟩

/-! ## Claims about the staging workflow and the KBANK parser -/

/-- C9 (code bug): the KBANK scenario line of the function's own docstring —
two spaces between the description, the two amounts and the channel — produces
NO row: `_KBANK_TRAN_PATTERN` requires at least three blanks (`[ \t]{3,}`)
between the description and the transaction amount, so the line does not match
and is silently skipped.  The claim (and the docstring) expect one `income`
row of 5000.00 with payment method `bank_transfer`. -/
theorem kbank_docstring_line_yields_no_rows :
    parse_kbank_lines
      ["03-01-26 16:25 รับโอนเงิน  5,000.00  5,000.00  K PLUS จาก..."] = [] := rfl

/-- C1 (code bug): committing a review-state job holding one perfectly
ordinary committable row (100 THB, type `expense`) creates NO ledger
transaction, confirms NO row and never marks the job `committed`:
`create_transaction` passes `counterparty_ref=`/`counterparty_name=` keyword
arguments to the `Transaction` dataclass, which declares no such fields, so
Python raises `TypeError` on the first committable row and `commit_staging`
aborts with the state unchanged. -/
theorem commit_staging_type_error_on_first_row :
    commit_staging 1 7 5 ⟨2026, 1, 15⟩
      { jobs := [{ id := 1, user_id := 7, original_name := "s.pdf",
                   storage_path := "p", file_hash := "h", file_size_bytes := 3,
                   status := .review }],
        stagingRows := [{ id := 2, ocr_job_id := 1, user_id := 7,
                          amount_thb := some 100,
                          transaction_type := some "expense" }],
        transactions := [], storage := [], nextId := 10 }
      = ({ jobs := [{ id := 1, user_id := 7, original_name := "s.pdf",
                      storage_path := "p", file_hash := "h", file_size_bytes := 3,
                      status := .review }],
           stagingRows := [{ id := 2, ocr_job_id := 1, user_id := 7,
                             amount_thb := some 100,
                             transaction_type := some "expense" }],
           transactions := [], storage := [], nextId := 10 },
         .error (.finance (.typeError
           "Transaction.__init__() got an unexpected keyword argument counterparty_ref"))) := rfl

/-- C4: `commit_staging` on a job that exists but is not in `review` (in
particular a second commit call on an already-`committed` job) fails with the
distinct `JobNotReadyError` and leaves the state untouched: no ledger
transaction is created and no staging row or job record changes. -/
theorem commit_requires_review_status
    (job_id user_id default_account_id : Nat) (today : PyDate) (st : DocState)
    (job : OcrJob) (hfind : getJobById st job_id user_id = some job)
    (hstatus : job.status ≠ .review) :
    commit_staging job_id user_id default_account_id today st
      = (st, .error (.jobNotReady job.status)) := by
  unfold commit_staging
  rw [hfind]
  have hb : (job.status != OcrJobStatus.review) = true := bne_iff_ne.mpr hstatus
  simp only [hb, if_true]

/-- Witness for C4: a second commit call on an already-committed job. -/
theorem commit_requires_review_status_witness :
    commit_staging 1 7 5 ⟨2026, 1, 15⟩
      { jobs := [{ id := 1, user_id := 7, original_name := "s.pdf",
                   storage_path := "p", file_hash := "h", file_size_bytes := 3,
                   status := .committed }],
        stagingRows := [], transactions := [], storage := [], nextId := 10 }
      = ({ jobs := [{ id := 1, user_id := 7, original_name := "s.pdf",
                      storage_path := "p", file_hash := "h", file_size_bytes := 3,
                      status := .committed }],
           stagingRows := [], transactions := [], storage := [], nextId := 10 },
         .error (.jobNotReady .committed)) :=
  commit_requires_review_status 1 7 5 ⟨2026, 1, 15⟩ _
    { id := 1, user_id := 7, original_name := "s.pdf", storage_path := "p",
      file_hash := "h", file_size_bytes := 3, status := .committed }
    (by decide) (by decide)

/-- The fields of a staging row that `update_staging_row` must never touch. -/
def stagingFrame (r : StagingTransaction) :
    Nat × Nat × Nat × Int × StagingReviewStatus × List (String × ℚ) ×
      Option String × Option String × Option String :=
  (r.id, r.ocr_job_id, r.user_id, r.sort_order, r.review_status, r.confidence,
   r.raw_text, r.counterparty_ref, r.counterparty_name)

theorem setFieldAttr_frame (r : StagingTransaction) (k : String) (v : FieldVal) :
    stagingFrame (setFieldAttr r k v) = stagingFrame r := by
  unfold setFieldAttr
  by_cases h1 : (k == "account_id") = true
  · rw [if_pos h1]; cases v <;> rfl
  rw [if_neg h1]
  by_cases h2 : (k == "category_id") = true
  · rw [if_pos h2]; cases v <;> rfl
  rw [if_neg h2]
  by_cases h3 : (k == "amount_thb") = true
  · rw [if_pos h3]; cases v <;> rfl
  rw [if_neg h3]
  by_cases h4 : (k == "original_amount") = true
  · rw [if_pos h4]; cases v <;> rfl
  rw [if_neg h4]
  by_cases h5 : (k == "original_currency") = true
  · rw [if_pos h5]; cases v <;> rfl
  rw [if_neg h5]
  by_cases h6 : (k == "exchange_rate") = true
  · rw [if_pos h6]; cases v <;> rfl
  rw [if_neg h6]
  by_cases h7 : (k == "transaction_type") = true
  · rw [if_pos h7]; cases v <;> rfl
  rw [if_neg h7]
  by_cases h8 : (k == "payment_method") = true
  · rw [if_pos h8]; cases v <;> rfl
  rw [if_neg h8]
  by_cases h9 : (k == "description") = true
  · rw [if_pos h9]; cases v <;> rfl
  rw [if_neg h9]
  by_cases h10 : (k == "transaction_date") = true
  · rw [if_pos h10]; cases v <;> rfl
  rw [if_neg h10]
  by_cases h11 : (k == "tags") = true
  · rw [if_pos h11]; cases v <;> rfl
  rw [if_neg h11]

theorem applyUpdatesLoop_frame (updates : List (String × FieldVal))
    (r : StagingTransaction) :
    stagingFrame (updates.foldl
      (fun r kv => if kv.1 ∈ ALLOWED_UPDATE_FIELDS then setFieldAttr r kv.1 kv.2 else r)
      r) = stagingFrame r := by
  induction updates generalizing r with
  | nil => simp
  | cons kv rest ih =>
    simp only [List.foldl_cons]
    by_cases hk : kv.1 ∈ ALLOWED_UPDATE_FIELDS
    · simp only [if_pos hk]
      exact (ih (setFieldAttr r kv.1 kv.2)).trans (setFieldAttr_frame r kv.1 kv.2)
    · simp only [if_neg hk]
      exact ih r

/-- C10: `update_staging_row` on an existing row applies only the whitelisted
editable fields of the update dictionary; every key outside the whitelist —
`review_status`, `confidence`, `raw_text`, `sort_order`, the ownership fields
`id`/`ocr_job_id`/`user_id` and the counterparty fields — leaves the
corresponding field unchanged; and the row's `review_status` is set to
`edited` unconditionally, even for an empty update dictionary. -/
theorem update_staging_row_whitelist
    (staging_id user_id : Nat) (updates : List (String × FieldVal))
    (st : DocState) (row : StagingTransaction)
    (hfind : getStagingById st staging_id user_id = some row) :
    ∃ row2, update_staging_row staging_id user_id updates st
        = (saveStaging st row2, .ok row2) ∧
      row2.review_status = .edited ∧
      row2.id = row.id ∧ row2.ocr_job_id = row.ocr_job_id ∧
      row2.user_id = row.user_id ∧ row2.sort_order = row.sort_order ∧
      row2.confidence = row.confidence ∧ row2.raw_text = row.raw_text ∧
      row2.counterparty_ref = row.counterparty_ref ∧
      row2.counterparty_name = row.counterparty_name := by
  refine ⟨applyStagingUpdates updates row, ?_, ?_⟩
  · unfold update_staging_row
    rw [hfind]
  · have h := applyUpdatesLoop_frame updates row
    have h1 := congrArg (fun p => p.1) h
    have h2 := congrArg (fun p => p.2.1) h
    have h3 := congrArg (fun p => p.2.2.1) h
    have h4 := congrArg (fun p => p.2.2.2.1) h
    have h6 := congrArg (fun p => p.2.2.2.2.2.1) h
    have h7 := congrArg (fun p => p.2.2.2.2.2.2.1) h
    have h8 := congrArg (fun p => p.2.2.2.2.2.2.2.1) h
    have h9 := congrArg (fun p => p.2.2.2.2.2.2.2.2) h
    simp only [stagingFrame] at h1 h2 h3 h4 h6 h7 h8 h9
    unfold applyStagingUpdates StagingTransaction.mark_edited
    exact ⟨rfl, h1, h2, h3, h4, h6, h7, h8, h9⟩

/-- Witness for C10: the empty update dictionary on a concrete pending row
still flips `review_status` to `edited` and changes nothing else. -/
theorem update_staging_row_whitelist_witness :
    ∃ row2, update_staging_row 2 7 []
        { jobs := [], transactions := [], storage := [], nextId := 10,
          stagingRows := [{ id := 2, ocr_job_id := 1, user_id := 7,
                            sort_order := 4, raw_text := some "t" }] }
        = (saveStaging
            { jobs := [], transactions := [], storage := [], nextId := 10,
              stagingRows := [{ id := 2, ocr_job_id := 1, user_id := 7,
                                sort_order := 4, raw_text := some "t" }] } row2,
           .ok row2) ∧
      row2.review_status = .edited ∧
      row2.id = 2 ∧ row2.ocr_job_id = 1 ∧ row2.user_id = 7 ∧
      row2.sort_order = 4 ∧ row2.confidence = [] ∧ row2.raw_text = some "t" ∧
      row2.counterparty_ref = none ∧ row2.counterparty_name = none :=
  update_staging_row_whitelist 2 7 [] _
    { id := 2, ocr_job_id := 1, user_id := 7, sort_order := 4,
      raw_text := some "t" } (by decide)

theorem overrideShape3_cases (ty : String) (c1 c2 c3 c4 c5 : Bool) :
    overrideShape3 ty c1 c2 c3 c4 c5 = ty ∨ overrideShape3 ty c1 c2 c3 c4 c5 = "transfer" := by
  unfold overrideShape3
  by_cases he : ty = "expense" <;> by_cases hi : ty = "income" <;>
    cases c1 <;> cases c2 <;> cases c3 <;> cases c4 <;> cases c5 <;>
      simp_all

theorem overrideShape3_keeps_transfer (c1 c2 c3 c4 c5 : Bool) :
    overrideShape3 "transfer" c1 c2 c3 c4 c5 = "transfer" := by
  unfold overrideShape3
  cases c1 <;> cases c2 <;> cases c3 <;> cases c4 <;> cases c5 <;> simp

theorem overrideShape2_cases (ty : String) (c1 c2 : Bool) :
    overrideShape2 ty c1 c2 = ty ∨ overrideShape2 ty c1 c2 = "transfer" := by
  unfold overrideShape2
  by_cases he : ty = "expense" <;> cases c1 <;> cases c2 <;> simp_all

theorem overrideShape2_keeps_transfer (c1 c2 : Bool) :
    overrideShape2 "transfer" c1 c2 = "transfer" := by
  unfold overrideShape2
  cases c1 <;> cases c2 <;> simp

/-- C6: the transfer-override rules of the SCB, KBANK and BAY parsers, applied
after the issuer-specific base type signal, only ever move the type toward
`transfer`: the final type is either the base type or `transfer`, and a base
signal of `transfer` is never changed to anything else — for every base type
and every description (hence every input line). -/
theorem transfer_overrides_only_toward_transfer (ty : String) (d : List Char) :
    (scb_transfer_overrides ty d = ty ∨ scb_transfer_overrides ty d = "transfer") ∧
    (ty = "transfer" → scb_transfer_overrides ty d = "transfer") ∧
    (kbank_transfer_overrides ty d = ty ∨ kbank_transfer_overrides ty d = "transfer") ∧
    (ty = "transfer" → kbank_transfer_overrides ty d = "transfer") ∧
    (bay_transfer_overrides ty d = ty ∨ bay_transfer_overrides ty d = "transfer") ∧
    (ty = "transfer" → bay_transfer_overrides ty d = "transfer") :=
  ⟨overrideShape3_cases ty _ _ _ _ _,
   fun h => h ▸ overrideShape3_keeps_transfer _ _ _ _ _,
   overrideShape3_cases ty _ _ _ _ _,
   fun h => h ▸ overrideShape3_keeps_transfer _ _ _ _ _,
   overrideShape2_cases ty _ _,
   fun h => h ▸ overrideShape2_keeps_transfer _ _⟩

/-- Witness for C6 at the base type `transfer` and a concrete description. -/
theorem transfer_overrides_only_toward_transfer_witness :
    scb_transfer_overrides "transfer" "โอนไป SCB".data = "transfer" ∧
    kbank_transfer_overrides "transfer" "โอนไป SCB".data = "transfer" ∧
    bay_transfer_overrides "transfer" "โอนไป SCB".data = "transfer" :=
  ⟨(transfer_overrides_only_toward_transfer "transfer" "โอนไป SCB".data).2.1 rfl,
   (transfer_overrides_only_toward_transfer "transfer" "โอนไป SCB".data).2.2.2.1 rfl,
   (transfer_overrides_only_toward_transfer "transfer" "โอนไป SCB".data).2.2.2.2.2 rfl⟩

/-- C8: the duplicate-file check of `submit_ocr_job` is scoped per user.  If
the repository already holds a job of the SAME user with the submitted bytes'
content hash, submission fails with `DuplicateFileError` carrying that job's
id, and the state is unchanged — no job is created and no bytes are stored
(the check runs before the write).  If no job of the submitting user carries
that hash — regardless of other users' jobs — submission is not rejected by
this check and produces a job of that user, left in `review` by the
synchronous OCR run. -/
theorem submit_dedup_scoped_per_user (hashFn : List Nat → String)
    (filename : String) (file_bytes : List Nat)
    (textLines : Option (List String)) (ea pi : Bool)
    (pages : Option (List (List Detection))) (st : DocState) :
    (∀ user_id existing,
      getJobByFileHash st (hashFn file_bytes) user_id = some existing →
      submit_ocr_job hashFn user_id filename file_bytes textLines ea pi pages st
        = (st, .error (.duplicateFile existing.id))) ∧
    (∀ user_id2,
      getJobByFileHash st (hashFn file_bytes) user_id2 = none →
      ∃ st2 job,
        submit_ocr_job hashFn user_id2 filename file_bytes textLines ea pi pages st
          = (st2, .ok job) ∧ job.user_id = user_id2 ∧ job.status = .review) := by
  constructor
  · intro user_id existing hdup
    simp only [submit_ocr_job]
    rw [hdup]
  · intro user_id2 hnone
    simp only [submit_ocr_job]
    rw [hnone]
    exact ⟨_, _, rfl, rfl, rfl⟩

/-- Witness for C8: user 1 already owns a job with hash "h"; re-submitting the
same bytes as user 1 is rejected with that job's id (3) and the state is
unchanged, while submitting the identical bytes as user 2 succeeds. -/
theorem submit_dedup_scoped_per_user_witness :
    (submit_ocr_job (fun _ => "h") 1 "a.pdf" [0, 1] none false false none
        { jobs := [{ id := 3, user_id := 1, original_name := "a.pdf",
                     storage_path := "p", file_hash := "h", file_size_bytes := 2,
                     status := .review }],
          stagingRows := [], transactions := [], storage := [], nextId := 10 }
      = ({ jobs := [{ id := 3, user_id := 1, original_name := "a.pdf",
                      storage_path := "p", file_hash := "h", file_size_bytes := 2,
                      status := .review }],
           stagingRows := [], transactions := [], storage := [], nextId := 10 },
         .error (.duplicateFile 3))) ∧
    (∃ st2 job,
      submit_ocr_job (fun _ => "h") 2 "a.pdf" [0, 1] none false false none
        { jobs := [{ id := 3, user_id := 1, original_name := "a.pdf",
                     storage_path := "p", file_hash := "h", file_size_bytes := 2,
                     status := .review }],
          stagingRows := [], transactions := [], storage := [], nextId := 10 }
        = (st2, .ok job) ∧ job.user_id = 2 ∧ job.status = .review) :=
  ⟨(submit_dedup_scoped_per_user (fun _ => "h") "a.pdf" [0, 1] none false false
      none _).1 1
      { id := 3, user_id := 1, original_name := "a.pdf", storage_path := "p",
        file_hash := "h", file_size_bytes := 2, status := .review }
      (by decide),
   (submit_dedup_scoped_per_user (fun _ => "h") "a.pdf" [0, 1] none false false
      none _).2 2 (by decide)⟩

theorem decimalOfTok_nonneg (t : List Char × List Char) : 0 ≤ decimalOfTok t := by
  unfold decimalOfTok
  positivity

theorem listMaxQ_ge (m : ℚ) (xs : List ℚ) : m ≤ listMaxQ m xs := by
  induction xs generalizing m with
  | nil => exact le_refl m
  | cons x xs ih =>
    simp only [listMaxQ]
    refine le_trans ?_ (ih _)
    split
    · exact le_of_lt (by assumption)
    · exact le_refl m

theorem parse_amount_nonneg {t : List Char} {q c : ℚ}
    (h : parse_amount t = (some q, c)) : 0 ≤ q := by
  unfold parse_amount at h
  split at h
  · simp at h
  · rw [Prod.mk.injEq] at h
    obtain ⟨h1, _⟩ := h
    rw [Option.some.injEq] at h1
    subst h1
    exact le_trans (decimalOfTok_nonneg _) (listMaxQ_ge _ _)

theorem pyDecimal_nonneg {cs : List Char} {q : ℚ} (h : pyDecimal cs = some q) :
    0 ≤ q := by
  simp only [pyDecimal] at h
  split at h
  · split at h
    · rw [Option.some.injEq] at h
      rw [← h]
      positivity
    · exact Option.noConfusion h
  · split at h
    · exact Option.noConfusion h
    · split at h
      · rw [Option.some.injEq] at h
        rw [← h]
        positivity
      · exact Option.noConfusion h
  · exact Option.noConfusion h

theorem infer_type_cases (t : List Char) :
    (infer_transaction_type t).1 = some "expense" ∨
    (infer_transaction_type t).1 = some "income" ∨
    (infer_transaction_type t).1 = none := by
  simp only [infer_transaction_type]
  split_ifs <;> simp

theorem mem_withSortOrders {r : ExtractedRow} {l : List ExtractedRow} {n : Nat}
    (h : r ∈ withSortOrders n l) :
    ∃ r0 ∈ l, r.amount = r0.amount ∧ r.transaction_type = r0.transaction_type := by
  induction l generalizing n with
  | nil => simp [withSortOrders] at h
  | cons a l ih =>
    simp only [withSortOrders, List.mem_cons] at h
    rcases h with h | h
    · exact ⟨a, List.mem_cons_self a l, by rw [h], by rw [h]⟩
    · obtain ⟨r0, hr0, he⟩ := ih h
      exact ⟨r0, List.mem_cons_of_mem a hr0, he⟩


theorem ccRowOfLine_ok {line : String} {r : ExtractedRow}
    (h : ccRowOfLine line = some r) :
    (∃ q, r.amount = some q ∧ 0 ≤ q) ∧
    (r.transaction_type = some "income" ∨ r.transaction_type = some "expense" ∨
     r.transaction_type = some "transfer") := by
  simp only [ccRowOfLine] at h
  split at h
  · exact Option.noConfusion h
  · split at h
    · exact Option.noConfusion h
    · rename_i parsed date_str description amount_str
      split at h
      · exact Option.noConfusion h
      · rename_i amount heq
        rw [Option.some.injEq] at h
        subst h
        refine ⟨⟨amount, rfl, pyDecimal_nonneg heq⟩, ?_⟩
        dsimp only
        repeat' split
        all_goals first
          | (left; rfl)
          | (right; left; rfl)
          | (right; right; rfl)


theorem krusriRowOfLine_ok {line : String} {r : ExtractedRow}
    (h : krusriRowOfLine line = some r) :
    (∃ q, r.amount = some q ∧ 0 ≤ q) ∧
    (r.transaction_type = some "income" ∨ r.transaction_type = some "expense" ∨
     r.transaction_type = some "transfer") := by
  simp only [krusriRowOfLine] at h
  split at h
  · exact Option.noConfusion h
  · split at h
    · exact Option.noConfusion h
    · split at h
      · exact Option.noConfusion h
      · split at h
        · exact Option.noConfusion h
        · rename_i amount heq
          split at h
          · exact Option.noConfusion h
          · rename_i hpos
            rw [Option.some.injEq] at h
            subst h
            exact ⟨⟨amount, rfl, (not_le.mp hpos).le⟩, Or.inr (Or.inl rfl)⟩

theorem mem3_some {s : String}
    (h : s = "income" ∨ s = "expense" ∨ s = "transfer") :
    some s = some "income" ∨ some s = some "expense" ∨ some s = some "transfer" := by
  rcases h with rfl | rfl | rfl <;> simp

theorem if_income_expense (b : Bool) :
    (if b then "income" else "expense") = "income" ∨
    (if b then "income" else "expense") = "expense" := by
  cases b <;> simp

theorem overrides3_mem {ty : String}
    (hty : ty = "income" ∨ ty = "expense" ∨ ty = "transfer") (c1 c2 c3 c4 c5 : Bool) :
    overrideShape3 ty c1 c2 c3 c4 c5 = "income" ∨
    overrideShape3 ty c1 c2 c3 c4 c5 = "expense" ∨
    overrideShape3 ty c1 c2 c3 c4 c5 = "transfer" := by
  rcases overrideShape3_cases ty c1 c2 c3 c4 c5 with hc | hc <;>
    rcases hty with rfl | rfl | rfl <;> rw [hc] <;> simp

theorem overrides2_mem {ty : String}
    (hty : ty = "income" ∨ ty = "expense" ∨ ty = "transfer") (c1 c2 : Bool) :
    overrideShape2 ty c1 c2 = "income" ∨
    overrideShape2 ty c1 c2 = "expense" ∨
    overrideShape2 ty c1 c2 = "transfer" := by
  rcases overrideShape2_cases ty c1 c2 with hc | hc <;>
    rcases hty with rfl | rfl | rfl <;> rw [hc] <;> simp

theorem scb_overrides_mem {ty : String}
    (hty : ty = "income" ∨ ty = "expense" ∨ ty = "transfer") (d : List Char) :
    scb_transfer_overrides ty d = "income" ∨ scb_transfer_overrides ty d = "expense" ∨
    scb_transfer_overrides ty d = "transfer" := by
  unfold scb_transfer_overrides
  exact overrides3_mem hty _ _ _ _ _

theorem kbank_overrides_mem {ty : String}
    (hty : ty = "income" ∨ ty = "expense" ∨ ty = "transfer") (d : List Char) :
    kbank_transfer_overrides ty d = "income" ∨ kbank_transfer_overrides ty d = "expense" ∨
    kbank_transfer_overrides ty d = "transfer" := by
  unfold kbank_transfer_overrides
  exact overrides3_mem hty _ _ _ _ _

theorem bay_overrides_mem {ty : String}
    (hty : ty = "income" ∨ ty = "expense" ∨ ty = "transfer") (d : List Char) :
    bay_transfer_overrides ty d = "income" ∨ bay_transfer_overrides ty d = "expense" ∨
    bay_transfer_overrides ty d = "transfer" := by
  unfold bay_transfer_overrides
  exact overrides2_mem hty _ _

theorem baseTwo_cases {b1 b2 : Bool} {ty : String}
    (h : (if b1 then some "income" else if b2 then some "expense" else none) = some ty) :
    ty = "income" ∨ ty = "expense" ∨ ty = "transfer" := by
  cases b1 <;> cases b2 <;> simp_all

theorem bayBase_cases {b1 b2 b3 b4 b5 : Bool} {ty : String}
    (h : (if b1 then some "income"
          else if b2 then some (if b3 then "transfer" else "income")
          else if b4 then some "transfer"
          else if b5 then some "expense" else none) = some ty) :
    ty = "income" ∨ ty = "expense" ∨ ty = "transfer" := by
  cases b1 <;> cases b2 <;> cases b3 <;> cases b4 <;> cases b5 <;> simp_all

theorem scbTranRowOfLine_ok {line : String} {r : ExtractedRow}
    (h : scbTranRowOfLine line = some r) :
    (∃ q, r.amount = some q ∧ 0 ≤ q) ∧
    (r.transaction_type = some "income" ∨ r.transaction_type = some "expense" ∨
     r.transaction_type = some "transfer") := by
  simp only [scbTranRowOfLine] at h
  split at h
  · exact Option.noConfusion h
  · split at h
    · exact Option.noConfusion h
    · split at h
      · exact Option.noConfusion h
      · rw [Option.some.injEq] at h
        subst h
        refine ⟨⟨_, rfl, decimalOfTok_nonneg _⟩, ?_⟩
        dsimp only
        exact mem3_some (scb_overrides_mem ((if_income_expense _).imp id Or.inl) _)

theorem kbankRowOfLine_ok {line : String} {r : ExtractedRow}
    (h : kbankRowOfLine line = some r) :
    (∃ q, r.amount = some q ∧ 0 ≤ q) ∧
    (r.transaction_type = some "income" ∨ r.transaction_type = some "expense" ∨
     r.transaction_type = some "transfer") := by
  simp only [kbankRowOfLine] at h
  split at h
  · exact Option.noConfusion h
  · split at h
    · exact Option.noConfusion h
    · split at h
      · exact Option.noConfusion h
      · split at h
        · exact Option.noConfusion h
        · rename_i amount heq
          split at h
          · exact Option.noConfusion h
          · rename_i ty0 hbase
            rw [Option.some.injEq] at h
            subst h
            refine ⟨⟨_, rfl, pyDecimal_nonneg heq⟩, ?_⟩
            dsimp only
            exact mem3_some (kbank_overrides_mem (baseTwo_cases hbase) _)

theorem bayFlush_ok {p : BayPending} {r : ExtractedRow}
    (h : bayFlush p = some r) :
    (∃ q, r.amount = some q ∧ 0 ≤ q) ∧
    (r.transaction_type = some "income" ∨ r.transaction_type = some "expense" ∨
     r.transaction_type = some "transfer") := by
  simp only [bayFlush] at h
  repeat' split at h
  all_goals try exact Option.noConfusion h
  all_goals
    rw [Option.some.injEq] at h
    subst h
    refine ⟨⟨_, rfl, decimalOfTok_nonneg _⟩, ?_⟩
    dsimp only
    exact mem3_some (bay_overrides_mem (bayBase_cases (by assumption)) _)

theorem detRow_ok {d : Detection} {r : ExtractedRow}
    (h : detRow d = some r) :
    (∃ q, r.amount = some q ∧ 0 ≤ q) ∧
    (r.transaction_type = some "income" ∨ r.transaction_type = some "expense" ∨
     r.transaction_type = none) := by
  simp only [detRow] at h
  split at h
  · exact Option.noConfusion h
  · rename_i amount amount_conf heq
    rw [Option.some.injEq] at h
    subst h
    refine ⟨⟨amount, rfl, parse_amount_nonneg heq⟩, ?_⟩
    dsimp only
    rcases infer_type_cases d.text.data with ht | ht | ht
    · right; left; rw [ht]
    · left; rw [ht]
    · right; right; rw [ht]


theorem parse_cc_rows_ok {lines : List String} {r : ExtractedRow}
    (h : r ∈ parse_pdftotext_lines lines) :
    (∃ q, r.amount = some q ∧ 0 ≤ q) ∧
    (r.transaction_type = some "income" ∨ r.transaction_type = some "expense" ∨
     r.transaction_type = some "transfer") := by
  obtain ⟨r0, hr0, ha, ht⟩ := mem_withSortOrders h
  obtain ⟨l, -, hl⟩ := List.mem_filterMap.mp hr0
  have hok := ccRowOfLine_ok hl
  exact ⟨ha ▸ hok.1, ht ▸ hok.2⟩

theorem parse_krusri_rows_ok {lines : List String} {r : ExtractedRow}
    (h : r ∈ parse_krusri_lines lines) :
    (∃ q, r.amount = some q ∧ 0 ≤ q) ∧
    (r.transaction_type = some "income" ∨ r.transaction_type = some "expense" ∨
     r.transaction_type = some "transfer") := by
  unfold parse_krusri_lines at h
  split at h
  · obtain ⟨r0, hr0, ha, ht⟩ := mem_withSortOrders h
    obtain ⟨l, -, hl⟩ := List.mem_filterMap.mp hr0
    have hok := krusriRowOfLine_ok hl
    exact ⟨ha ▸ hok.1, ht ▸ hok.2⟩
  · exact absurd h (List.not_mem_nil r)

theorem parse_scb_rows_ok {lines : List String} {r : ExtractedRow}
    (h : r ∈ parse_scb_tran_lines lines) :
    (∃ q, r.amount = some q ∧ 0 ≤ q) ∧
    (r.transaction_type = some "income" ∨ r.transaction_type = some "expense" ∨
     r.transaction_type = some "transfer") := by
  obtain ⟨r0, hr0, ha, ht⟩ := mem_withSortOrders h
  obtain ⟨l, -, hl⟩ := List.mem_filterMap.mp hr0
  have hok := scbTranRowOfLine_ok hl
  exact ⟨ha ▸ hok.1, ht ▸ hok.2⟩

theorem parse_kbank_rows_ok {lines : List String} {r : ExtractedRow}
    (h : r ∈ parse_kbank_lines lines) :
    (∃ q, r.amount = some q ∧ 0 ≤ q) ∧
    (r.transaction_type = some "income" ∨ r.transaction_type = some "expense" ∨
     r.transaction_type = some "transfer") := by
  obtain ⟨r0, hr0, ha, ht⟩ := mem_withSortOrders h
  obtain ⟨l, -, hl⟩ := List.mem_filterMap.mp hr0
  have hok := kbankRowOfLine_ok hl
  exact ⟨ha ▸ hok.1, ht ▸ hok.2⟩

theorem mem_bayGo {r : ExtractedRow} :
    ∀ {lines : List String} {pending : Option BayPending},
      r ∈ bayGo pending lines → ∃ p, bayFlush p = some r := by
  intro lines
  induction lines with
  | nil =>
    intro pending h
    cases pending with
    | none => exact absurd h (List.not_mem_nil r)
    | some p =>
      simp only [bayGo] at h
      rcases hb : bayFlush p with - | v
      · rw [hb] at h
        simp at h
      · rw [hb] at h
        exact ⟨p, by rw [hb]; exact congrArg some (List.mem_singleton.mp h).symm⟩
  | cons line ls ih =>
    intro pending h
    simp only [bayGo] at h
    split at h
    · exact ih h
    · split at h
      · exact ih h
      · split at h
        · rcases List.mem_append.mp h with hl | hfr
          · cases pending with
            | none => exact absurd hl (List.not_mem_nil r)
            | some p =>
              dsimp only at hl
              rcases hb : bayFlush p with - | v
              · rw [hb] at hl
                simp at hl
              · rw [hb] at hl
                exact ⟨p, by rw [hb]; exact congrArg some (List.mem_singleton.mp hl).symm⟩
          · exact ih hfr
        · cases pending with
          | none => exact ih h
          | some p =>
            dsimp only at h
            split at h
            · exact ih h
            · exact ih h

theorem parse_bay_rows_ok {lines : List String} {r : ExtractedRow}
    (h : r ∈ parse_bay_lines lines) :
    (∃ q, r.amount = some q ∧ 0 ≤ q) ∧
    (r.transaction_type = some "income" ∨ r.transaction_type = some "expense" ∨
     r.transaction_type = some "transfer") := by
  unfold parse_bay_lines at h
  split at h
  · obtain ⟨r0, hr0, ha, ht⟩ := mem_withSortOrders h
    obtain ⟨p, hp⟩ := mem_bayGo hr0
    have hok := bayFlush_ok hp
    exact ⟨ha ▸ hok.1, ht ▸ hok.2⟩
  · exact absurd h (List.not_mem_nil r)

theorem parserTableRows_ok :
    ∀ pr ∈ PARSER_TABLE, ∀ (lines : List String), ∀ r ∈ pr.2 lines,
      (∃ q, r.amount = some q ∧ 0 ≤ q) ∧
      (r.transaction_type = some "income" ∨ r.transaction_type = some "expense" ∨
       r.transaction_type = some "transfer") := by
  intro pr hpr lines r hr
  simp only [PARSER_TABLE, List.mem_cons, List.not_mem_nil, or_false] at hpr
  rcases hpr with rfl | rfl | rfl | rfl | rfl
  · exact parse_krusri_rows_ok hr
  · exact parse_bay_rows_ok hr
  · exact parse_cc_rows_ok hr
  · exact parse_scb_rows_ok hr
  · exact parse_kbank_rows_ok hr

theorem mem_firstRows {ps : List (String × (List String → List ExtractedRow))}
    {lines : List String} {fr : String × List ExtractedRow} :
    firstRows ps lines = some fr → ∃ p ∈ ps, p.1 = fr.1 ∧ p.2 lines = fr.2 := by
  induction ps with
  | nil => intro h; exact Option.noConfusion h
  | cons p rest ih =>
    intro h
    simp only [firstRows] at h
    split at h
    · obtain ⟨q, hq, h1, h2⟩ := ih h
      exact ⟨q, List.mem_cons_of_mem p hq, h1, h2⟩
    · rename_i row rows heq
      rw [Option.some.injEq] at h
      subst h
      exact ⟨p, List.mem_cons_self p rest, rfl, heq⟩

theorem easyocrBranchRows_ok {ea pi : Bool} {pages : Option (List (List Detection))}
    {r : ExtractedRow} (h : r ∈ (easyocrBranch ea pi pages).rows) :
    (∃ q, r.amount = some q ∧ 0 ≤ q) ∧
    (r.transaction_type = some "income" ∨ r.transaction_type = some "expense" ∨
     r.transaction_type = none) := by
  unfold easyocrBranch at h
  split at h
  · exact absurd h (List.not_mem_nil r)
  · split at h
    · exact absurd h (List.not_mem_nil r)
    · unfold easyocrFallback at h
      obtain ⟨r0, hr0, ha, ht⟩ := mem_withSortOrders h
      obtain ⟨d, -, hd⟩ := List.mem_filterMap.mp hr0
      have hok := detRow_ok hd
      exact ⟨ha ▸ hok.1, ht ▸ hok.2⟩

theorem processRows_ok (textLines : Option (List String)) (ea pi : Bool)
    (pages : Option (List (List Detection))) :
    ∀ r ∈ (process_pdf textLines ea pi pages).rows,
      (∃ q, r.amount = some q ∧ 0 ≤ q) ∧
      (r.transaction_type = some "income" ∨ r.transaction_type = some "expense" ∨
       r.transaction_type = some "transfer" ∨ r.transaction_type = none) := by
  intro r hr
  match textLines with
  | none => exact (easyocrBranchRows_ok hr).imp id (Or.imp id (Or.imp id Or.inr))
  | some [] => exact (easyocrBranchRows_ok hr).imp id (Or.imp id (Or.imp id Or.inr))
  | some (l :: ls) =>
    simp only [process_pdf] at hr
    split at hr
    · rename_i fr heq
      obtain ⟨p, hp, -, hrows⟩ := mem_firstRows heq
      rw [← hrows] at hr
      exact (parserTableRows_ok p hp (l :: ls) r hr).imp id
        (Or.imp id (Or.imp id Or.inl))
    · exact (easyocrBranchRows_ok hr).imp id (Or.imp id (Or.imp id Or.inr))


/-- C3 (amended): every row produced by any of the five text-layer parsers has
a present, non-negative amount and a transaction type among `income`,
`expense`, `transfer`; rows of the full pipeline (including the EasyOCR
image-detection fallback) always have a present, non-negative amount, but a
fallback row's transaction type may also be absent (`None`), because
`_infer_transaction_type` returns `(None, 0.0)` when no keyword matches. -/
theorem parser_rows_amount_and_type :
    (∀ pr ∈ PARSER_TABLE, ∀ (lines : List String), ∀ r ∈ pr.2 lines,
      (∃ q, r.amount = some q ∧ 0 ≤ q) ∧
      (r.transaction_type = some "income" ∨ r.transaction_type = some "expense" ∨
       r.transaction_type = some "transfer")) ∧
    (∀ (textLines : Option (List String)) (ea pi : Bool)
       (pages : Option (List (List Detection))),
      ∀ r ∈ (process_pdf textLines ea pi pages).rows,
        (∃ q, r.amount = some q ∧ 0 ≤ q) ∧
        (r.transaction_type = some "income" ∨ r.transaction_type = some "expense" ∨
         r.transaction_type = some "transfer" ∨ r.transaction_type = none)) :=
  ⟨parserTableRows_ok, processRows_ok⟩

/-- Witness for C3 on a concrete credit-card line through the `cc` parser. -/
theorem parser_rows_amount_and_type_witness :
    (∃ q, ((parse_pdftotext_lines ["12/01  COFFEE  150.00"]).head
        (by decide)).amount = some q ∧ 0 ≤ q) ∧
    (((parse_pdftotext_lines ["12/01  COFFEE  150.00"]).head
        (by decide)).transaction_type = some "income" ∨
     ((parse_pdftotext_lines ["12/01  COFFEE  150.00"]).head
        (by decide)).transaction_type = some "expense" ∨
     ((parse_pdftotext_lines ["12/01  COFFEE  150.00"]).head
        (by decide)).transaction_type = some "transfer") :=
  parser_rows_amount_and_type.1 ("cc", parse_pdftotext_lines)
    (List.mem_cons_of_mem _ (List.mem_cons_of_mem _ (List.mem_cons_self _ _)))
    ["12/01  COFFEE  150.00"] _ (List.head_mem (by decide))

/-- C3 counterexample: a scanned-PDF detection reading `100.00` makes the
EasyOCR fallback emit a row whose transaction type is `None`, outside
`{income, expense, transfer}`. -/
theorem fallback_row_without_type :
    (process_pdf none true true
        (some [[⟨[0, 0, 10, 10], "100.00", 1⟩]])).rows.map
      (fun r => r.transaction_type) = [none] := rfl

theorem firstRows_append (ps1 ps2 : List (String × (List String → List ExtractedRow)))
    (p : String × (List String → List ExtractedRow)) (lines : List String)
    (hbefore : ∀ q ∈ ps1, q.2 lines = []) (hwin : p.2 lines ≠ []) :
    firstRows (ps1 ++ p :: ps2) lines = some (p.1, p.2 lines) := by
  induction ps1 with
  | nil =>
    simp only [List.nil_append, firstRows]
    split
    · rename_i heq
      exact absurd heq hwin
    · rename_i row rows heq
      rw [heq]
  | cons q qs ih =>
    simp only [List.cons_append, firstRows]
    split
    · exact ih (fun q2 hq2 => hbefore q2 (List.mem_cons_of_mem q hq2))
    · rename_i row rows heq
      exact absurd (heq.symm.trans (hbefore q (List.mem_cons_self q qs)))
        (List.cons_ne_nil row rows)

/-- C5: the dispatcher of `process_pdf` tries the fixed parser list in order;
whenever every parser before position `i` returns no rows and the parser at
position `i` returns a non-empty row list, the result is exactly that parser's
rows, the diagnostic raw output records that parser's format name together
with the number of extracted lines, and nothing after position `i` influences
the result (the parsers after `i` are universally quantified). -/
theorem dispatcher_first_nonempty_parser_wins
    (before after : List (String × (List String → List ExtractedRow)))
    (p : String × (List String → List ExtractedRow)) (l : String) (ls : List String)
    (ea pi : Bool) (pages : Option (List (List Detection)))
    (hsplit : PARSER_TABLE = before ++ p :: after)
    (hbefore : ∀ q ∈ before, q.2 (l :: ls) = [])
    (hwin : p.2 (l :: ls) ≠ []) :
    process_pdf (some (l :: ls)) ea pi pages =
      { raw_output := .pdftotext p.1 (l :: ls).length,
        rows := p.2 (l :: ls), page_count := 1 } := by
  simp only [process_pdf, hsplit,
    firstRows_append before after p (l :: ls) hbefore hwin]

/-- Witness for C5: with one credit-card-shaped line, `krusri` and `bay`
return no rows and the `cc` parser wins. -/
theorem dispatcher_first_nonempty_parser_wins_witness :
    process_pdf (some ["12/01  COFFEE  150.00"]) true true none =
      { raw_output := .pdftotext "cc" 1,
        rows := parse_pdftotext_lines ["12/01  COFFEE  150.00"],
        page_count := 1 } :=
  dispatcher_first_nonempty_parser_wins
    [("krusri", parse_krusri_lines), ("bay", parse_bay_lines)]
    [("scb_tran", parse_scb_tran_lines), ("kbank", parse_kbank_lines)]
    ("cc", parse_pdftotext_lines) "12/01  COFFEE  150.00" [] true true none rfl
    (by
      intro q hq
      rcases List.mem_cons.mp hq with rfl | hq2
      · rfl
      · rcases List.mem_cons.mp hq2 with rfl | hq3
        · rfl
        · exact absurd hq3 (List.not_mem_nil q))
    (by decide)
